import Mathlib

/-!
# Contact form of the portfolio site (`src/components/Contact.jsx`)

A shallow embedding of the `Contact` component's state and handlers.

* JavaScript strings are embedded as Lean `String`s.  The two string
  operations the component uses (`RegExp.prototype.test` with an ASCII-only
  pattern and `String.prototype.trim`) only ever distinguish characters of the
  Basic Multilingual Plane, and no surrogate code unit is in any of the
  pattern's classes or in the white space set, so reading a string by code
  points gives the same answers as reading it by UTF-16 code units.
* The five `useState` cells become the fields of `ContactState`; a handler is a
  function from the state of the render it closes over to the state after its
  batched setter calls, together with the trace of outside effects it caused.
* `emailjs.send(..)` returns a promise; the call is recorded as an effect and
  its settlement (`.then` callback or `.catch` callback) is a later step.
* Exceptions are explicit in `handleSubmitRun`: there the send call may also
  throw before it returns, and a callback of the promise chain may throw.
-/

namespace Contact

/-! ## Regular expressions of the shape used by `validateEmail` -/

/-- One member of a bracketed character class: a range `a-z` or a single character. -/
inductive ClassItem where
  | range (lo hi : Char)
  | single (c : Char)
  deriving DecidableEq, Repr

/-- Does the character belong to the class member? -/
def ClassItem.test : ClassItem → Char → Bool
  | .range lo hi, c => decide (lo.toNat ≤ c.toNat) && decide (c.toNat ≤ hi.toNat)
  | .single d, c => c == d

/-- A quantified atom of a pattern: a character class `[..]` (a literal character
is the one-member class) repeated between `lo` and `hi` times (`none` is no upper
bound, as in `+`). -/
structure Piece where
  items : List ClassItem
  lo : Nat
  hi : Option Nat
  deriving DecidableEq, Repr

/-- Does the character belong to the class of the piece? -/
def Piece.accepts (p : Piece) (c : Char) : Bool :=
  p.items.any fun i => i.test c

/-- Is the whole of `s` one run of the piece: every character is in the class
and the length is within the quantifier's bounds? -/
def Piece.run (p : Piece) (s : List Char) : Bool :=
  decide (p.lo ≤ s.length) &&
  (match p.hi with
   | none => true
   | some h => decide (s.length ≤ h)) &&
  s.all p.accepts

/-- Anchored match `^p₁p₂…pₙ$` of a sequence of pieces against the whole input:
some way of cutting the input into consecutive runs, one per piece.  A
backtracking matcher succeeds exactly when such a cut exists. -/
def matchPieces : List Piece → List Char → Bool
  | [], s => s.isEmpty
  | p :: ps, s =>
    (List.range (s.length + 1)).any fun i =>
      p.run (s.take i) && matchPieces ps (s.drop i)

/-- The class `[a-zA-Z0-9._-]`. -/
def localClass : List ClassItem :=
  [.range 'a' 'z', .range 'A' 'Z', .range '0' '9', .single '.', .single '_', .single '-']

/-- The class `[a-zA-Z0-9.-]`. -/
def domainClass : List ClassItem :=
  [.range 'a' 'z', .range 'A' 'Z', .range '0' '9', .single '.', .single '-']

/-- The class `[a-zA-Z]`. -/
def letterClass : List ClassItem :=
  [.range 'a' 'z', .range 'A' 'Z']

/-- The pattern `/^[a-zA-Z0-9._-]+@[a-zA-Z0-9.-]+\.[a-zA-Z]{2,4}$/`. -/
def emailRegex : List Piece :=
  [ ⟨localClass, 1, none⟩,
    ⟨[.single '@'], 1, some 1⟩,
    ⟨domainClass, 1, none⟩,
    ⟨[.single '.'], 1, some 1⟩,
    ⟨letterClass, 2, some 4⟩ ]

/-- The `validateEmail` function: `regex.test(email)`. -/
def validateEmail (email : String) : Bool :=
  matchPieces emailRegex email.data

/-! ## `String.prototype.trim` -/

/-- Code points of ECMAScript `WhiteSpace` and `LineTerminator`. -/
def isWhiteSpace (c : Char) : Bool :=
  let n := c.toNat
  n == 0x0009 || n == 0x000A || n == 0x000B || n == 0x000C || n == 0x000D ||
  n == 0x0020 || n == 0x00A0 || n == 0x1680 ||
  (decide (0x2000 ≤ n) && decide (n ≤ 0x200A)) ||
  n == 0x2028 || n == 0x2029 || n == 0x202F || n == 0x205F || n == 0x3000 ||
  n == 0xFEFF

/-- The `trim` method: white space removed from both ends. -/
def trim (s : String) : String :=
  ⟨((s.data.dropWhile isWhiteSpace).reverse.dropWhile isWhiteSpace).reverse⟩

/-- JavaScript truthiness of a string: every string but the empty one. -/
def truthy (s : String) : Bool :=
  !s.data.isEmpty

/-! ## Component state -/

/-- The `form` state cell: the three fields of the draft. -/
structure Form where
  name : String
  email : String
  message : String
  deriving DecidableEq, Repr

/-- The five `useState` cells of the `Contact` component. -/
structure ContactState where
  form : Form
  loading : Bool
  emailError : String
  nameError : String
  confirmation : String
  deriving DecidableEq, Repr

/-- The initial values given to `useState`. -/
def initialState : ContactState :=
  { form := { name := "", email := "", message := "" }
    loading := false
    emailError := ""
    nameError := ""
    confirmation := "" }

/-- The setter `setForm`. -/
def setForm (v : Form) (s : ContactState) : ContactState := { s with form := v }

/-- The setter `setLoading`. -/
def setLoading (v : Bool) (s : ContactState) : ContactState := { s with loading := v }

/-- The setter `setEmailError`. -/
def setEmailError (v : String) (s : ContactState) : ContactState := { s with emailError := v }

/-- The setter `setNameError`. -/
def setNameError (v : String) (s : ContactState) : ContactState := { s with nameError := v }

/-- The setter `setConfirmation`. -/
def setConfirmation (v : String) (s : ContactState) : ContactState :=
  { s with confirmation := v }

/-! ## The outside world: environment, the EmailJS call, effects -/

/-- The three `import.meta.env` entries the component reads; an entry that is
not configured reads as `undefined`, here `none`. -/
structure Env where
  VITE_EMAILJS_SERVICE_ID : Option String
  VITE_EMAILJS_TEMPLATE_ID : Option String
  VITE_EMAILJS_PUBLIC_KEY : Option String
  deriving DecidableEq, Repr

/-- The template parameter object passed to `emailjs.send`. -/
structure TemplateParams where
  from_name : String
  to_name : String
  from_email : String
  to_email : String
  message : String
  deriving DecidableEq, Repr

/-- The four arguments of one `emailjs.send` call. -/
structure SendCall where
  serviceID : Option String
  templateID : Option String
  templateParams : TemplateParams
  publicKey : Option String
  deriving DecidableEq, Repr

/-- The value a rejected promise carries; the component only hands it to
`console.error`. -/
structure ErrorValue where
  status : Nat
  text : String
  deriving DecidableEq, Repr

/-- Effects of a handler that are visible outside the component state. -/
inductive Effect where
  | preventDefault
  | send (call : SendCall)
  | consoleError (error : ErrorValue)
  deriving DecidableEq, Repr

/-- The `emailjs.send` calls of an effect trace, in order. -/
def sendCalls : List Effect → List SendCall
  | [] => []
  | .send c :: fx => c :: sendCalls fx
  | _ :: fx => sendCalls fx

/-- The values logged with `console.error` in an effect trace, in order. -/
def loggedErrors : List Effect → List ErrorValue
  | [] => []
  | .consoleError e :: fx => e :: loggedErrors fx
  | _ :: fx => loggedErrors fx

/-! ## Handlers -/

/-- The names of the three inputs, the possible values of `e.target.name`. -/
inductive Field where
  | name
  | email
  | message
  deriving DecidableEq, Repr

/-- The object `{ ...form, [name]: value }`. -/
def Form.set (form : Form) : Field → String → Form
  | .name, v => { form with name := v }
  | .email, v => { form with email := v }
  | .message, v => { form with message := v }

/-- The `handleChange` handler (lines 95-101). -/
def handleChange (field : Field) (value : String) (s : ContactState) : ContactState :=
  setForm (s.form.set field value) s

/-- The `handleSubmit` handler up to the `emailjs.send` call (lines 122-157): the
state after its setter calls and the effects it caused.  `s` is the state of the
render the handler closes over, so `form` is read from `s` throughout. -/
def handleSubmit (env : Env) (s : ContactState) : ContactState × List Effect :=
  let form := s.form
  -- e.preventDefault()
  let fx := [Effect.preventDefault]
  -- Clear previous errors and messages
  let s := setEmailError "" s
  let s := setNameError "" s
  let s := setConfirmation "" s
  -- Client-side validation
  if !validateEmail form.email then
    (setEmailError "Please enter a valid email address." s, fx)
  else if !truthy (trim form.name) then
    (setNameError "Name is required." s, fx)
  else
    -- Start loading state
    let s := setLoading true s
    -- Send email using EmailJS
    (s, fx ++ [Effect.send
      { serviceID := env.VITE_EMAILJS_SERVICE_ID
        templateID := env.VITE_EMAILJS_TEMPLATE_ID
        templateParams :=
          { from_name := form.name
            to_name := "Asitha Kanchana"
            from_email := form.email
            to_email := "asitha.contact.me@gmail.com"
            message := form.message }
        publicKey := env.VITE_EMAILJS_PUBLIC_KEY }])

/-- The `.then` callback (lines 159-170), run when the promise of a send call
resolves. -/
def onSendResolved (s : ContactState) : ContactState × List Effect :=
  let s := setLoading false s
  let s := setConfirmation "Thank you! I will get back to you as soon as possible." s
  -- Clear form after successful submission
  let s := setForm { name := "", email := "", message := "" } s
  (s, [])

/-- The `.catch` callback (lines 172-177), run when the promise of a send call
rejects with `error`. -/
def onSendRejected (error : ErrorValue) (s : ContactState) : ContactState × List Effect :=
  let s := setLoading false s
  -- console.error(error)
  let fx := [Effect.consoleError error]
  let s := setConfirmation "Something went wrong. Please try again. :/" s
  (s, fx)

/-! ## The component as a transition system -/

/-- The component together with its surroundings: the rendered state, the send
calls whose promises have not settled yet, and every effect caused so far. -/
structure System where
  ui : ContactState
  inFlight : List SendCall
  trace : List Effect
  deriving DecidableEq, Repr

/-- What can happen to the component: the user edits a field or submits the
form, or the promise of the `i`-th pending send call settles. -/
inductive Action where
  | change (field : Field) (value : String)
  | submit
  | resolve (i : Nat)
  | reject (i : Nat) (error : ErrorValue)
  deriving DecidableEq, Repr

/-- One step of the component.  Settling a promise that is not pending is not a
step the surroundings can take; the system is left as it is. -/
def step (env : Env) (σ : System) : Action → System
  | .change field value => { σ with ui := handleChange field value σ.ui }
  | .submit =>
    let r := handleSubmit env σ.ui
    { ui := r.1, inFlight := σ.inFlight ++ sendCalls r.2, trace := σ.trace ++ r.2 }
  | .resolve i =>
    if i < σ.inFlight.length then
      let r := onSendResolved σ.ui
      { ui := r.1, inFlight := σ.inFlight.eraseIdx i, trace := σ.trace ++ r.2 }
    else σ
  | .reject i error =>
    if i < σ.inFlight.length then
      let r := onSendRejected error σ.ui
      { ui := r.1, inFlight := σ.inFlight.eraseIdx i, trace := σ.trace ++ r.2 }
    else σ

/-- Run a list of actions from a system state. -/
def run (env : Env) (σ : System) (as : List Action) : System :=
  as.foldl (step env) σ

/-- The system right after the component is mounted. -/
def initialSystem : System :=
  { ui := initialState, inFlight := [], trace := [] }

/-! ## Reading a field, and the promise chain of `handleSubmit` -/

/-- The property read `form[field]`. -/
def Form.get (form : Form) : Field → String
  | .name => form.name
  | .email => form.email
  | .message => form.message

/-- How a promise has settled: fulfilled, or rejected with a value. -/
inductive Settlement where
  | fulfilled
  | rejected (error : ErrorValue)
  deriving DecidableEq, Repr

/-- How the run of a callback ends: the state after its setter calls, its
outside effects, and the value it threw, if it threw one. -/
structure CallbackRun where
  state : ContactState
  effects : List Effect
  thrown : Option ErrorValue
  deriving DecidableEq, Repr

/-- The promise `p.then(onFulfilled)`, given how `p` settled.  On fulfilment the
callback runs, and the new promise is rejected with what the callback throws and
fulfilled if it returns; there is no rejection callback, so a rejection of `p`
passes through with its value. -/
def thenStage (onFulfilled : ContactState → CallbackRun) (p : Settlement)
    (s : ContactState) : Settlement × ContactState × List Effect :=
  match p with
  | .fulfilled =>
    let r := onFulfilled s
    (match r.thrown with
     | none => Settlement.fulfilled
     | some error => Settlement.rejected error,
     r.state, r.effects)
  | .rejected error => (.rejected error, s, [])

/-- The promise `p.catch(onRejected)`, given how `p` settled.  A fulfilment
passes through; on rejection the callback runs with the value, and the new
promise is rejected with what the callback throws and fulfilled if it returns. -/
def catchStage (onRejected : ErrorValue → ContactState → CallbackRun) (p : Settlement)
    (s : ContactState) : Settlement × ContactState × List Effect :=
  match p with
  | .fulfilled => (.fulfilled, s, [])
  | .rejected error =>
    let r := onRejected error s
    (match r.thrown with
     | none => Settlement.fulfilled
     | some thrown => Settlement.rejected thrown,
     r.state, r.effects)

/-- The run of the `.then` callback (lines 159-170): three setter calls, after
which the callback returns. -/
def thenCallback (s : ContactState) : CallbackRun :=
  { state := (onSendResolved s).1, effects := (onSendResolved s).2, thrown := none }

/-- The run of the `.catch` callback (lines 172-177): two setter calls and a
`console.error` call, after which the callback returns. -/
def catchCallback (error : ErrorValue) (s : ContactState) : CallbackRun :=
  { state := (onSendRejected error s).1
    effects := (onSendRejected error s).2
    thrown := none }

/-- The whole chain `emailjs.send(..).then(..).catch(..)` once the promise of the
send call has settled as `p`: how the last promise of the chain settles, the
component state and the effects. -/
def settleChain (p : Settlement) (s : ContactState) :
    Settlement × ContactState × List Effect :=
  let a := thenStage thenCallback p s
  let b := catchStage catchCallback a.1 a.2.1
  (b.1, b.2.1, a.2.2 ++ b.2.2)

/-- What a call of `emailjs.send` does: it throws before it returns, or it
returns a promise, which settles later. -/
inductive SendBehaviour where
  | throws (error : ErrorValue)
  | returns (promise : Settlement)
  deriving DecidableEq, Repr

/-- A run of `handleSubmit` together with the settlement of the chain it built:
the component state and the effects at the end, the value that left
`handleSubmit` as an exception (if one did), and how the last promise of the
chain settled (if a chain was built). -/
structure SubmitRun where
  state : ContactState
  effects : List Effect
  thrown : Option ErrorValue
  chain : Option Settlement
  deriving DecidableEq, Repr

/-- The handler `handleSubmit` (lines 122-178) run to the end, `send` telling what
each call of `emailjs.send` does.  The handler has no `try` statement: a value
thrown by the call leaves the handler, after the setter calls made before it,
and no chain is built; otherwise the chain `.then(..).catch(..)` is built on the
promise returned and runs when that promise settles. -/
def handleSubmitRun (env : Env) (send : SendCall → SendBehaviour) (s : ContactState) :
    SubmitRun :=
  let r := handleSubmit env s
  match sendCalls r.2 with
  | [] => { state := r.1, effects := r.2, thrown := none, chain := none }
  | call :: _ =>
    match send call with
    | .throws error => { state := r.1, effects := r.2, thrown := some error, chain := none }
    | .returns promise =>
      let c := settleChain promise r.1
      { state := c.2.1, effects := r.2 ++ c.2.2, thrown := none, chain := some c.1 }

/-! ## Predicates used to state properties of the email check -/

/-- Does the string contain the character `@`? -/
def containsAt (s : String) : Bool :=
  s.data.any fun c => c == '@'

/-- An ASCII letter, `a` to `z` or `A` to `Z`. -/
def isAsciiLetter (c : Char) : Bool :=
  (decide (97 ≤ c.toNat) && decide (c.toNat ≤ 122)) ||
  (decide (65 ≤ c.toNat) && decide (c.toNat ≤ 90))

/-- Are the last `k + 1` characters of `s` a dot followed by `k` ASCII letters? -/
def endsInDotThenLetters (k : Nat) (s : List Char) : Bool :=
  decide (k + 1 ≤ s.length) &&
  (match s.drop (s.length - (k + 1)) with
   | [] => false
   | c :: t => c == '.' && t.all isAsciiLetter)

/-- Does the string end in a dot followed by 2, 3 or 4 ASCII letters? -/
def endsInDotTld (s : String) : Bool :=
  [2, 3, 4].any fun k => endsInDotThenLetters k s.data

/-- Is every character of the string white space (true of the empty string)? -/
def isBlank (s : String) : Bool :=
  s.data.all isWhiteSpace

/-- An ASCII digit, `0` to `9`. -/
def isAsciiDigit (c : Char) : Bool :=
  decide (48 ≤ c.toNat) && decide (c.toNat ≤ 57)

/-- A character of `[A-Za-z0-9._-]`. -/
def isLocalChar (c : Char) : Bool :=
  isAsciiLetter c || isAsciiDigit c || c == '.' || c == '_' || c == '-'

/-- A character of `[A-Za-z0-9.-]`. -/
def isDomainChar (c : Char) : Bool :=
  isAsciiLetter c || isAsciiDigit c || c == '.' || c == '-'

/-- A character of `[A-Za-z0-9._@-]`. -/
def isAddressChar (c : Char) : Bool :=
  isLocalChar c || c == '@'

/-! ## Teardown of the component -/

/-- One call of a state setter, with its argument. -/
inductive SetterCall where
  | form (v : Form)
  | loading (v : Bool)
  | emailError (v : String)
  | nameError (v : String)
  | confirmation (v : String)
  deriving DecidableEq, Repr

/-- The state after one setter call. -/
def SetterCall.apply : SetterCall → ContactState → ContactState
  | .form v, s => setForm v s
  | .loading v, s => setLoading v s
  | .emailError v, s => setEmailError v s
  | .nameError v, s => setNameError v s
  | .confirmation v, s => setConfirmation v s

/-- The setter calls the `.then` callback makes (lines 161-169), in order.  The
callback reads no state, no ref and no flag before making them. -/
def resolvedCalls : List SetterCall :=
  [ .loading false,
    .confirmation "Thank you! I will get back to you as soon as possible.",
    .form { name := "", email := "", message := "" } ]

/-- The setter calls the `.catch` callback makes (lines 174 and 176), in order.
The callback reads nothing but its `error` argument before making them. -/
def rejectedCalls : List SetterCall :=
  [ .loading false,
    .confirmation "Something went wrong. Please try again. :/" ]

/-- A component instance: whether it is still mounted, and its state cells. -/
structure Instance where
  mounted : Bool
  ui : ContactState
  deriving DecidableEq, Repr

/-- The component is torn down: React unmounts the instance. -/
def teardown (i : Instance) : Instance :=
  { i with mounted := false }

/-- What React does with setter calls: for a mounted instance they are applied
in order; for an instance that has been torn down they are dropped. -/
def Instance.dispatch (i : Instance) (calls : List SetterCall) : Instance :=
  if i.mounted then
    { i with ui := calls.foldl (fun s c => c.apply s) i.ui }
  else i

/-- The `.then` callback run on an instance: the instance afterwards, the setter
calls the callback made, and its outside effects. -/
def lateResolved (i : Instance) : Instance × List SetterCall × List Effect :=
  (i.dispatch resolvedCalls, resolvedCalls, [])

/-- The `.catch` callback run on an instance: the instance afterwards, the setter
calls the callback made, and its outside effects. -/
def lateRejected (error : ErrorValue) (i : Instance) :
    Instance × List SetterCall × List Effect :=
  (i.dispatch rejectedCalls, rejectedCalls, [Effect.consoleError error])

/-! ## Concrete inputs -/

/-- An environment with all three entries configured. -/
def exampleEnv : Env :=
  { VITE_EMAILJS_SERVICE_ID := some "service_1"
    VITE_EMAILJS_TEMPLATE_ID := some "template_1"
    VITE_EMAILJS_PUBLIC_KEY := some "public_1" }

/-- A freshly mounted form filled in with a valid name and email. -/
def filledState : ContactState :=
  { initialState with form := { name := "Ann", email := "ann@mail.com", message := "hello" } }

/-- A form whose email has a top-level domain of six letters. -/
def museumState : ContactState :=
  { initialState with form := { name := "Ann", email := "a@b.museum", message := "hello" } }

/-- A form with a valid email and a name of two spaces. -/
def blankNameState : ContactState :=
  { initialState with form := { name := "  ", email := "ann@mail.com", message := "hello" } }

/-- A form with an email that fails the check and an empty name. -/
def bothBadState : ContactState :=
  { initialState with form := { name := "", email := "ann", message := "hello" } }

/-- A send call whose promise rejects with status 500. -/
def rejectingSend : SendCall → SendBehaviour :=
  fun _ => SendBehaviour.returns (Settlement.rejected { status := 500, text := "down" })

/-- A send call that throws before it returns. -/
def throwingSend : SendCall → SendBehaviour :=
  fun _ => SendBehaviour.throws { status := 400, text := "The public key is required" }

/-- The send call `handleSubmit` makes for `filledState` under `exampleEnv`. -/
def filledCall : SendCall :=
  { serviceID := some "service_1"
    templateID := some "template_1"
    templateParams :=
      { from_name := "Ann"
        to_name := "Asitha Kanchana"
        from_email := "ann@mail.com"
        to_email := "asitha.contact.me@gmail.com"
        message := "hello" }
    publicKey := some "public_1" }

end Contact

/-!
# Retry logic of the test canvas (`src/components/canvas/TestCanvas.jsx`)

The two `useState` cells of `SimpleTestCanvas` become the fields of `CanvasState`.
The listeners registered in `onCreated`, the `onError` callback and the timeout
callback of the retry effect are functions on that state; `render` is the
component body.  Time is counted in milliseconds where the effect that arms the
timeout is modelled.
-/

namespace SimpleTestCanvas

/-- The `useState` cells `contextLost` and `retryCount`. -/
structure CanvasState where
  contextLost : Bool
  retryCount : Nat
  deriving DecidableEq, Repr

/-- The initial values given to `useState` (lines 19-20). -/
def initialState : CanvasState :=
  { contextLost := false, retryCount := 0 }

/-- The setter `setContextLost`. -/
def setContextLost (v : Bool) (s : CanvasState) : CanvasState :=
  { s with contextLost := v }

/-- The setter `setRetryCount`, called with an updater function. -/
def setRetryCount (f : Nat → Nat) (s : CanvasState) : CanvasState :=
  { s with retryCount := f s.retryCount }

/-- What the handlers do outside the component state. -/
inductive Effect where
  | consoleLog (text : String)
  | consoleWarn (text : String)
  | consoleError (text : String) (error : String)
  | preventDefault
  deriving DecidableEq, Repr

/-- The number of `event.preventDefault()` calls in an effect trace. -/
def preventDefaultCalls (fx : List Effect) : Nat :=
  fx.count Effect.preventDefault

/-- The callback passed to `setTimeout` (lines 24-29).  The effect is re-run, and
the old timeout cleared, whenever `contextLost` or `retryCount` changes, so the
values the callback closes over are those of the current state. -/
def onTimeout (s : CanvasState) : CanvasState :=
  if s.contextLost && decide (s.retryCount < 3) then
    let t := setContextLost false s
    setRetryCount (fun prev => prev + 1) t
  else s

/-- The `webglcontextlost` listener (lines 64-68). -/
def onContextLost (s : CanvasState) : CanvasState × List Effect :=
  (setContextLost true s,
   [Effect.consoleWarn "WebGL context lost, preventing default", Effect.preventDefault])

/-- The `webglcontextrestored` listener (lines 71-74). -/
def onContextRestored (s : CanvasState) : CanvasState × List Effect :=
  (setContextLost false s, [Effect.consoleLog "WebGL context restored"])

/-- The `onError` callback of the canvas (lines 76-79). -/
def onError (error : String) (s : CanvasState) : CanvasState × List Effect :=
  (setContextLost true s, [Effect.consoleError "Canvas error:" error])

/-- What the component returns: the placeholder, with the line `Retry n/3` when
`retryCount > 0`, or the canvas with its `key`. -/
inductive View where
  | placeholder (retry : Option Nat)
  | canvas (key : Nat)
  deriving DecidableEq, Repr

/-- The body of the component (lines 34-93). -/
def render (s : CanvasState) : View :=
  if s.contextLost then
    View.placeholder (if s.retryCount > 0 then some s.retryCount else none)
  else
    View.canvas s.retryCount

/-- The events the component handles. -/
inductive Event where
  | timeout
  | contextLost
  | contextRestored
  | error (error : String)
  deriving DecidableEq, Repr

/-- One event handled in state `s`. -/
def step (s : CanvasState) : Event → CanvasState
  | .timeout => onTimeout s
  | .contextLost => (onContextLost s).1
  | .contextRestored => (onContextRestored s).1
  | .error e => (onError e s).1

/-- A sequence of events handled one after the other. -/
def run (s : CanvasState) (evs : List Event) : CanvasState :=
  evs.foldl step s

/-- The number of timed retries that fire while `evs` is handled from `s`:
timeouts that expire in a state with `contextLost` true and `retryCount < 3`. -/
def retriesFired : CanvasState → List Event → Nat
  | _, [] => 0
  | s, ev :: evs =>
    (if ev = Event.timeout ∧ s.contextLost = true ∧ s.retryCount < 3 then 1 else 0) +
      retriesFired (step s ev) evs

/-- The component with its pending timeout: `timer` is the time at which the
timeout armed by the retry effect expires, if one is pending. -/
structure Timed where
  ui : CanvasState
  timer : Option Nat
  deriving DecidableEq, Repr

/-- The retry effect (lines 23-32) after a render at time `now`: when neither
dependency changed the effect does not run and the pending timeout is kept;
otherwise the cleanup clears it and a timeout of 2000 ms is armed. -/
def retryEffect (now : Nat) (before after : CanvasState) (timer : Option Nat) :
    Option Nat :=
  if after.contextLost = before.contextLost ∧ after.retryCount = before.retryCount then
    timer
  else
    some (now + 2000)

/-- The component mounted at time `now`: the first render, then the effect. -/
def mountAt (now : Nat) : Timed :=
  { ui := initialState, timer := some (now + 2000) }

/-- One event at time `now`.  A timeout expires only at the time it was armed
for, and is then no longer pending. -/
def stepAt (now : Nat) (σ : Timed) (ev : Event) : Timed :=
  match ev with
  | .timeout =>
    if σ.timer = some now then
      let t := onTimeout σ.ui
      { ui := t, timer := retryEffect now σ.ui t none }
    else σ
  | ev =>
    let t := step σ.ui ev
    { ui := t, timer := retryEffect now σ.ui t σ.timer }

end SimpleTestCanvas

/-!
# WebGL probe and viewport flag of the computers canvas
(`src/components/canvas/Computers.jsx`)
-/

namespace ComputersCanvas

/-- The `useState` cells `isMobile` and `webglSupported`. -/
structure CanvasState where
  isMobile : Bool
  webglSupported : Bool
  deriving DecidableEq, Repr

/-- The initial values given to `useState` (lines 34-35). -/
def initialState : CanvasState :=
  { isMobile := false, webglSupported := true }

/-- The setter `setIsMobile`. -/
def setIsMobile (v : Bool) (s : CanvasState) : CanvasState :=
  { s with isMobile := v }

/-- The setter `setWebglSupported`. -/
def setWebglSupported (v : Bool) (s : CanvasState) : CanvasState :=
  { s with webglSupported := v }

/-- A rendering context handed out by `canvas.getContext`. -/
structure GLContext where
  id : Nat
  deriving DecidableEq, Repr

/-- What the component reads from the browser: the result of
`canvas.getContext('webgl')` and of `canvas.getContext('experimental-webgl')`
(`none` is `null`), and whether the media query `(max-width: 500px)` matches. -/
structure Browser where
  webgl : Option GLContext
  experimentalWebgl : Option GLContext
  mediaMatches : Bool
  deriving DecidableEq, Repr

/-- What the effect and the listeners do outside the component state. -/
inductive Effect where
  | consoleLog (text : String)
  | consoleWarn (text : String)
  | preventDefault
  | addChangeListener
  deriving DecidableEq, Repr

/-- The body of the mount effect (lines 38-54). -/
def mountEffect (b : Browser) (s : CanvasState) : CanvasState × List Effect :=
  -- Check WebGL support
  let gl := b.webgl.orElse fun _ => b.experimentalWebgl
  let r :=
    if gl.isNone then
      (setWebglSupported false s, [Effect.consoleWarn "WebGL not supported"])
    else (s, [])
  -- Check initial state
  let s := setIsMobile b.mediaMatches r.1
  (s, r.2 ++ [Effect.addChangeListener])

/-- The `handleMediaQueryChange` listener (lines 50-52), called with `event.matches`. -/
def handleMediaQueryChange (eventMatches : Bool) (s : CanvasState) : CanvasState :=
  setIsMobile eventMatches s

/-- The `webglcontextlost` listener (lines 88-91). -/
def onContextLost (s : CanvasState) : CanvasState × List Effect :=
  (s, [Effect.consoleWarn "WebGL context lost", Effect.preventDefault])

/-- The `webglcontextrestored` listener (lines 93-95). -/
def onContextRestored (s : CanvasState) : CanvasState × List Effect :=
  (s, [Effect.consoleLog "WebGL context restored"])

/-- The `scale` and `position` given to the model's `primitive`. -/
structure ModelParams where
  scale : ℚ
  position : List ℚ
  deriving DecidableEq, Repr

/-- The render parameters chosen by `ComputerModel` (lines 23-24). -/
def ComputerModel (isMobile : Bool) : ModelParams :=
  { scale := if isMobile then 0.7 else 0.75
    position := if isMobile then [0, -3, -2.2] else [0, -3.25, -1.5] }

/-- What the component returns: the fallback box with its text, or the canvas
holding the model. -/
inductive View where
  | fallback (text : String)
  | canvas (model : ModelParams)
  deriving DecidableEq, Repr

/-- The body of the component (lines 61-108). -/
def render (s : CanvasState) : View :=
  if !s.webglSupported then
    View.fallback "WebGL not supported"
  else
    View.canvas (ComputerModel s.isMobile)

/-- The component in its browser. -/
structure System where
  ui : CanvasState
  browser : Browser
  deriving DecidableEq, Repr

/-- The events the component handles: its mount effect running, a `change` event
of the media query (the query now matches or not), and the two context
notifications of the canvas. -/
inductive Event where
  | effect
  | mediaChange (nowMatches : Bool)
  | contextLost
  | contextRestored
  deriving DecidableEq, Repr

/-- One event. -/
def step (σ : System) : Event → System
  | .effect => { σ with ui := (mountEffect σ.browser σ.ui).1 }
  | .mediaChange m =>
    { ui := handleMediaQueryChange m σ.ui
      browser := { σ.browser with mediaMatches := m } }
  | .contextLost => { σ with ui := (onContextLost σ.ui).1 }
  | .contextRestored => { σ with ui := (onContextRestored σ.ui).1 }

/-- A sequence of events handled one after the other. -/
def run (σ : System) (evs : List Event) : System :=
  evs.foldl step σ

/-- The views rendered after each of the events `evs`, handled from `σ`. -/
def rendersFrom (σ : System) : List Event → List View
  | [] => []
  | ev :: evs => render (step σ ev).ui :: rendersFrom (step σ ev) evs

/-- The views rendered from mount onwards in browser `b`: the first render, with
the initial state, then one render after the mount effect (which React runs
after the first render is committed) and one after each further event. -/
def renders (b : Browser) (evs : List Event) : List View :=
  render initialState ::
    rendersFrom { ui := initialState, browser := b } (Event.effect :: evs)

/-- A browser without WebGL and with a wide viewport. -/
def noWebglBrowser : Browser :=
  { webgl := none, experimentalWebgl := none, mediaMatches := false }

/-- A browser with WebGL and a narrow viewport. -/
def mobileBrowser : Browser :=
  { webgl := some { id := 1 }, experimentalWebgl := none, mediaMatches := true }

end ComputersCanvas

/-!
# Social media links (`src/components/SocialMedia.jsx`)

The link table, the `SocialButton` guard and class string, the three list
components and the variant switch.  The components read the module constant
`socialMediaLinks`; here the table is an argument, and `socialMediaLinks` is the
table the file ships.  Animation properties and the class strings of the
containers are left out.
-/

namespace SocialLinks

/-- One entry of the link table; `icon` is the name of the icon component. -/
structure SocialLink where
  name : String
  icon : String
  url : String
  color : String
  bgColor : String
  borderColor : String
  deriving DecidableEq, Repr

/-- The table `socialMediaLinks` (lines 52-109). -/
def socialMediaLinks : List SocialLink :=
  [ { name := "LinkedIn"
      icon := "FaLinkedin"
      url := "https://www.linkedin.com/in/asithakanchana/"
      color := "text-white"
      bgColor := "bg-blue-600 hover:bg-blue-700"
      borderColor := "border-blue-500" },
    { name := "GitHub"
      icon := "FaGithub"
      url := "https://github.com/AsithaKanchana1"
      color := "text-white"
      bgColor := "bg-gray-700 hover:bg-gray-600"
      borderColor := "border-gray-600" },
    { name := "Facebook"
      icon := "FaFacebook"
      url := "https://www.facebook.com/share/14EaKhgas5L/"
      color := "text-white"
      bgColor := "bg-blue-500 hover:bg-blue-600"
      borderColor := "border-blue-400" },
    { name := "YouTube"
      icon := "FaYoutube"
      url := "https://youtube.com/@ASI_SOLUTION"
      color := "text-white"
      bgColor := "bg-red-600 hover:bg-red-700"
      borderColor := "border-red-500" },
    { name := "WhatsApp"
      icon := "FaWhatsapp"
      url := "https://wa.me/94701336364"
      color := "text-white"
      bgColor := "bg-green-600 hover:bg-green-700"
      borderColor := "border-green-500" },
    { name := "Instagram"
      icon := "FaInstagram"
      url := "#"
      color := "text-white"
      bgColor :=
        "bg-gradient-to-r from-purple-500 to-pink-500 hover:from-purple-600 hover:to-pink-600"
      borderColor := "border-pink-400" },
    { name := "Twitter"
      icon := "FaTwitter"
      url := "#"
      color := "text-white"
      bgColor := "bg-sky-500 hover:bg-sky-600"
      borderColor := "border-sky-400" } ]

/-- The size variants of `SocialButton`. -/
inductive Size where
  | sm
  | md
  | lg
  | xl
  deriving DecidableEq, Repr

/-- The table `sizeClasses` (lines 132-137). -/
def sizeClasses : Size → String
  | .sm => "w-8 h-8 p-1.5 sm:w-10 sm:h-10 sm:p-2"
  | .md => "w-10 h-10 p-2 sm:w-12 sm:h-12 sm:p-2.5"
  | .lg => "w-12 h-12 p-2.5 sm:w-16 sm:h-16 sm:p-3"
  | .xl => "w-16 h-16 p-3 sm:w-20 sm:h-20 sm:p-4"

/-- The table `iconSizes` (lines 140-145). -/
def iconSizes : Size → String
  | .sm => "text-sm sm:text-lg"
  | .md => "text-lg sm:text-2xl"
  | .lg => "text-xl sm:text-3xl"
  | .xl => "text-2xl sm:text-4xl"

/-- The text of the template literal of lines 160-175 with its substitutions
filled in.  Inside a template literal `//` does not start a comment: the text
after it is part of the string. -/
def classTemplate (social : SocialLink) (size : Size) (showLabel : Bool) : String :=
  "\n        " ++ sizeClasses size ++
  " \n        " ++ social.color ++
  "     // White text for all icons\n        " ++ social.bgColor ++
  "   // Platform-specific colored backgrounds\n        border-2 " ++ social.borderColor ++
  "  // Platform-specific colored borders\n        flex items-center justify-center\n        relative            // For absolute positioned glow effect\n        rounded-full        // Circular buttons\n        transition-all duration-300  // Smooth transitions\n        hover:scale-110     // Slight scale on hover\n        hover:shadow-2xl    // Strong shadow on hover\n        group               // For child element hover states\n        shadow-lg shadow-black/30  // Strong shadow for definition\n        overflow-hidden     // Hide glow overflow\n        " ++
  (if showLabel then "flex-col gap-1 py-3" else "") ++
  "  // Vertical layout for labels\n      "

/-- The replacement of every maximal run of white space by one space; `inRun`
tells whether the character before was white space. -/
def collapseRuns : Bool → List Char → List Char
  | _, [] => []
  | inRun, c :: cs =>
    if Contact.isWhiteSpace c then
      if inRun then collapseRuns true cs else ' ' :: collapseRuns true cs
    else c :: collapseRuns false cs

/-- The call `.replace(/\s+/g, ' ')`. -/
def replaceWhiteSpace (s : String) : String :=
  ⟨collapseRuns false s.data⟩

/-- The `className` of the button (lines 160-175). -/
def buttonClassName (social : SocialLink) (size : Size) (showLabel : Bool) : String :=
  Contact.trim (replaceWhiteSpace (classTemplate social size showLabel))

/-- The anchor element `SocialButton` renders. -/
structure Button where
  href : String
  className : String
  ariaLabel : String
  icon : String
  iconClassName : String
  label : Option String
  index : Nat
  deriving DecidableEq, Repr

/-- The `SocialButton` component (lines 130-225): `none` is `return null`. -/
def SocialButton (social : SocialLink) (index : Nat) (size : Size) (showLabel : Bool) :
    Option Button :=
  -- Prevent rendering if URL is empty or just hash
  if !Contact.truthy social.url || social.url == "#" then
    none
  else
    some
      { href := social.url
        className := buttonClassName social size showLabel
        ariaLabel := "Visit " ++ social.name ++ " profile"
        icon := social.icon
        iconClassName :=
          iconSizes size ++ " transition-all duration-300 drop-shadow-lg relative z-10"
        label := if showLabel then some social.name else none
        index := index }

/-- A child in the list a component renders: its `key` and what the
`SocialButton` placed there returned. -/
structure Child where
  key : String
  button : Option Button
  deriving DecidableEq, Repr

/-- The call `links.map((social, index) => ..)`, counting indices from `start`. -/
def mapWithIndex (f : SocialLink → Nat → Child) : Nat → List SocialLink → List Child
  | _, [] => []
  | start, social :: rest => f social start :: mapWithIndex f (start + 1) rest

/-- The test of the `filter` call in `SocialMediaBar` (lines 266-268). -/
def isValidSocialLink (social : SocialLink) : Bool :=
  Contact.truthy social.url && social.url != "#" && Contact.trim social.url != ""

/-- The children of `SocialMediaBar` (lines 266-268 and 286-308). -/
def SocialMediaBar (links : List SocialLink) (size : Size) (showLabels : Bool) :
    List Child :=
  -- Filter out social media links with empty or placeholder URLs
  let validSocialLinks := links.filter isValidSocialLink
  mapWithIndex
    (fun social index =>
      { key := social.name, button := SocialButton social index size showLabels })
    0 validSocialLinks

/-- The children of `SocialMediaSidebar` (lines 353-360); `showLabel` is not
passed and takes its default. -/
def SocialMediaSidebar (links : List SocialLink) (size : Size) : List Child :=
  mapWithIndex
    (fun social index =>
      { key := social.name, button := SocialButton social index size false })
    0 links

/-- The children of `SocialMediaGrid` (lines 400-408). -/
def SocialMediaGrid (links : List SocialLink) (size : Size) (showLabels : Bool) :
    List Child :=
  mapWithIndex
    (fun social index =>
      { key := social.name, button := SocialButton social index size showLabels })
    0 links

/-- The keys of the children that show a button, in order. -/
def shownKeys (children : List Child) : List String :=
  (children.filter fun c => c.button.isSome).map fun c => c.key

/-- The link targets of the buttons shown, in order. -/
def shownHrefs (children : List Child) : List String :=
  children.filterMap fun c => c.button.map fun b => b.href

/-- The components the variant switch chooses from. -/
inductive Component where
  | SocialMediaBar
  | SocialMediaSidebar
  | SocialMediaGrid
  | ContactSocialMedia
  deriving DecidableEq, Repr

/-- The default export `SocialMedia` (lines 542-553): the component chosen and
the props handed to it.  `variant` is `none` when the prop is omitted; `props`
is the rest object `...props`. -/
def SocialMedia {Props : Type} (variant : Option String) (props : Props) :
    Component × Props :=
  let variant := variant.getD "bar"
  if variant = "sidebar" then (Component.SocialMediaSidebar, props)
  else if variant = "grid" then (Component.SocialMediaGrid, props)
  else if variant = "contact" then (Component.ContactSocialMedia, props)
  else (Component.SocialMediaBar, props)

/-! ## Reading Tailwind size classes -/

/-- The two viewport ranges the size classes distinguish: below the `sm`
breakpoint, and from it upwards (where the `sm:` classes apply). -/
inductive Breakpoint where
  | base
  | sm
  deriving DecidableEq, Repr

/-- The pieces of a class string between single spaces. -/
def splitOnSpace : List Char → List (List Char)
  | [] => [[]]
  | c :: cs =>
    if c = ' ' then [] :: splitOnSpace cs
    else
      match splitOnSpace cs with
      | [] => [[c]]
      | t :: ts => (c :: t) :: ts

/-- The class tokens of a class string. -/
def classTokens (s : String) : List String :=
  (splitOnSpace s.data).map fun t => String.mk t

/-- What is left of `s` after the leading characters `lead`, if it starts with them. -/
def afterLeading : List Char → List Char → Option (List Char)
  | [], s => some s
  | _ :: _, [] => none
  | p :: ps, c :: cs => if p = c then afterLeading ps cs else none

/-- The number written by a list of decimal digits, read after `acc`. -/
def readDigits (acc : Nat) : List Char → Option Nat
  | [] => some acc
  | c :: cs =>
    if Contact.isAsciiDigit c then readDigits (acc * 10 + (c.toNat - 48)) cs else none

/-- The `N` of the first token of the form `lead` followed by the number `N`. -/
def spacingUnits (lead : String) : List (List Char) → Option Nat
  | [] => none
  | t :: ts =>
    match afterLeading lead.data t with
    | some (d :: ds) =>
      (match readDigits 0 (d :: ds) with
       | some n => some n
       | none => spacingUnits lead ts)
    | _ => spacingUnits lead ts

/-- The pixel length a class string sets with the utility `util` (`w` or `h`) at
a breakpoint, reading `util-N` as `4N` pixels: from the `sm` breakpoint upwards
the class `sm:util-N` wins over `util-N` where both are present. -/
def lengthPx (util : String) (bp : Breakpoint) (classes : String) : Option Nat :=
  let tokens := splitOnSpace classes.data
  let base := spacingUnits (util ++ "-") tokens
  let units :=
    match bp with
    | .base => base
    | .sm => (spacingUnits ("sm:" ++ util ++ "-") tokens).orElse fun _ => base
  units.map fun n => 4 * n

/-- The width of the button in pixels. -/
def widthPx (bp : Breakpoint) (size : Size) : Option Nat :=
  lengthPx "w" bp (sizeClasses size)

/-- The height of the button in pixels. -/
def heightPx (bp : Breakpoint) (size : Size) : Option Nat :=
  lengthPx "h" bp (sizeClasses size)

/-! ## Concrete inputs -/

/-- The first entry of the shipped table. -/
def linkedIn : SocialLink :=
  { name := "LinkedIn"
    icon := "FaLinkedin"
    url := "https://www.linkedin.com/in/asithakanchana/"
    color := "text-white"
    bgColor := "bg-blue-600 hover:bg-blue-700"
    borderColor := "border-blue-500" }

/-- An entry whose url is one space. -/
def blankUrlLink : SocialLink :=
  { name := "Blog"
    icon := "FaGithub"
    url := " "
    color := "text-white"
    bgColor := "bg-gray-700"
    borderColor := "border-gray-600" }

end SocialLinks

namespace Contact

/-! ## Lemmas on strings and on the pattern matcher -/

theorem truthy_iff (s : String) : truthy s = true ↔ s ≠ "" := by
  cases s with
  | mk d =>
    cases d <;> simp [truthy, String.ext_iff]

theorem truthy_eq_false_iff (s : String) : truthy s = false ↔ s = "" := by
  rw [← Bool.not_eq_true, truthy_iff, not_not]

theorem trim_of_isBlank (s : String) (h : isBlank s = true) : trim s = "" := by
  have h1 : s.data.dropWhile isWhiteSpace = [] := by
    rw [List.dropWhile_eq_nil_iff]
    intro c hc
    exact (List.all_eq_true.1 h) c hc
  simp [trim, h1, String.ext_iff]

theorem matchPieces_cons_iff (p : Piece) (ps : List Piece) (s : List Char) :
    matchPieces (p :: ps) s = true ↔
      ∃ a b, s = a ++ b ∧ p.run a = true ∧ matchPieces ps b = true := by
  constructor
  · intro h
    simp only [matchPieces, List.any_eq_true, List.mem_range, Bool.and_eq_true] at h
    obtain ⟨i, _, h1, h2⟩ := h
    exact ⟨s.take i, s.drop i, (List.take_append_drop i s).symm, h1, h2⟩
  · rintro ⟨a, b, rfl, h1, h2⟩
    simp only [matchPieces, List.any_eq_true, List.mem_range, Bool.and_eq_true]
    refine ⟨a.length, ?_, ?_, ?_⟩
    · simp; omega
    · simpa using h1
    · simpa using h2

theorem run_single (c : Char) (a : List Char)
    (h : Piece.run ⟨[.single c], 1, some 1⟩ a = true) : a = [c] := by
  simp only [Piece.run, Bool.and_eq_true, decide_eq_true_eq, List.all_eq_true] at h
  obtain ⟨⟨h1, h2⟩, h3⟩ := h
  match a, h1, h2, h3 with
  | [x], _, _, h3 =>
    have := h3 x (by simp)
    simp [Piece.accepts, ClassItem.test] at this
    simp [this]

theorem accepts_letterClass (lo : Nat) (hi : Option Nat) (c : Char) :
    Piece.accepts ⟨letterClass, lo, hi⟩ c = isAsciiLetter c := by
  simp [Piece.accepts, letterClass, ClassItem.test, isAsciiLetter]

/-- An accepted email is a run of the local class, an `@`, a run of the domain
class, a dot and two to four letters. -/
theorem validateEmail_shape (email : String) (h : validateEmail email = true) :
    ∃ l d t, email.data = l ++ '@' :: (d ++ '.' :: t) ∧
      Piece.run ⟨localClass, 1, none⟩ l = true ∧
      Piece.run ⟨domainClass, 1, none⟩ d = true ∧
      Piece.run ⟨letterClass, 2, some 4⟩ t = true := by
  unfold validateEmail emailRegex at h
  obtain ⟨l, r1, e1, hl, h⟩ := (matchPieces_cons_iff _ _ _).1 h
  obtain ⟨a, r2, e2, ha, h⟩ := (matchPieces_cons_iff _ _ _).1 h
  obtain ⟨d, r3, e3, hd, h⟩ := (matchPieces_cons_iff _ _ _).1 h
  obtain ⟨b, r4, e4, hb, h⟩ := (matchPieces_cons_iff _ _ _).1 h
  obtain ⟨t, r5, e5, ht, h⟩ := (matchPieces_cons_iff _ _ _).1 h
  have h5 : r5 = [] := by simpa [matchPieces] using h
  have ha2 := run_single _ _ ha
  have hb2 := run_single _ _ hb
  subst h5 ha2 hb2 e5 e4 e3 e2
  exact ⟨l, d, t, by simpa using e1, hl, hd, ht⟩

theorem endsInDotThenLetters_append (pre t : List Char)
    (ht : t.all isAsciiLetter = true) :
    endsInDotThenLetters t.length (pre ++ '.' :: t) = true := by
  have hlen : (pre ++ '.' :: t).length - (t.length + 1) = pre.length := by
    simp
  simp only [endsInDotThenLetters, hlen, List.drop_left]
  simp [ht]

theorem validateEmail_containsAt (email : String) (h : validateEmail email = true) :
    containsAt email = true := by
  obtain ⟨l, d, t, e, -, -, -⟩ := validateEmail_shape email h
  simp [containsAt, e]

theorem validateEmail_endsInDotTld (email : String) (h : validateEmail email = true) :
    endsInDotTld email = true := by
  obtain ⟨l, d, t, e, -, -, ht⟩ := validateEmail_shape email h
  simp only [Piece.run, Bool.and_eq_true, decide_eq_true_eq] at ht
  obtain ⟨⟨h2, h4⟩, hall⟩ := ht
  have hall2 : t.all isAsciiLetter = true := by
    rw [List.all_eq_true] at hall ⊢
    intro c hc
    rw [← accepts_letterClass 2 (some 4)]
    exact hall c hc
  have key := endsInDotThenLetters_append (l ++ '@' :: d) t hall2
  have e2 : email.data = (l ++ '@' :: d) ++ '.' :: t := by simp [e]
  rw [← e2] at key
  have hk : t.length = 2 ∨ t.length = 3 ∨ t.length = 4 := by omega
  simp only [endsInDotTld, List.any_cons, List.any_nil, Bool.or_false, Bool.or_eq_true]
  rcases hk with hk | hk | hk
  · left; rw [← hk]; exact key
  · right; left; rw [← hk]; exact key
  · right; right; rw [← hk]; exact key

/-! ## The three exits of `handleSubmit` -/

theorem handleSubmit_of_invalid_email (env : Env) (s : ContactState)
    (h : validateEmail s.form.email = false) :
    handleSubmit env s =
      (setEmailError "Please enter a valid email address."
        (setConfirmation "" (setNameError "" (setEmailError "" s))),
       [Effect.preventDefault]) := by
  simp [handleSubmit, h]

theorem handleSubmit_of_blank_name (env : Env) (s : ContactState)
    (h1 : validateEmail s.form.email = true) (h2 : truthy (trim s.form.name) = false) :
    handleSubmit env s =
      (setNameError "Name is required."
        (setConfirmation "" (setNameError "" (setEmailError "" s))),
       [Effect.preventDefault]) := by
  simp [handleSubmit, h1, h2]

theorem handleSubmit_of_valid (env : Env) (s : ContactState)
    (h1 : validateEmail s.form.email = true) (h2 : truthy (trim s.form.name) = true) :
    handleSubmit env s =
      (setLoading true (setConfirmation "" (setNameError "" (setEmailError "" s))),
       [Effect.preventDefault,
        Effect.send
          { serviceID := env.VITE_EMAILJS_SERVICE_ID
            templateID := env.VITE_EMAILJS_TEMPLATE_ID
            templateParams :=
              { from_name := s.form.name
                to_name := "Asitha Kanchana"
                from_email := s.form.email
                to_email := "asitha.contact.me@gmail.com"
                message := s.form.message }
            publicKey := env.VITE_EMAILJS_PUBLIC_KEY }]) := by
  simp [handleSubmit, h1, h2]

/-! ## Validation gate of `handleSubmit` -/

/-- C1: for every draft, `handleSubmit` invokes the outbound send call if and only
if `validateEmail(email)` is true and `name.trim()` is non-empty.  This holds for
every state, in particular for one with no submission in flight. -/
theorem handleSubmit_sends_iff (env : Env) (s : ContactState) :
    sendCalls (handleSubmit env s).2 ≠ [] ↔
      (validateEmail s.form.email = true ∧ trim s.form.name ≠ "") := by
  cases h1 : validateEmail s.form.email with
  | false => simp [handleSubmit_of_invalid_email env s h1, sendCalls]
  | true =>
    cases h2 : truthy (trim s.form.name) with
    | false =>
      have h3 := (truthy_eq_false_iff _).1 h2
      simp [handleSubmit_of_blank_name env s h1 h2, sendCalls, h3]
    | true =>
      have h3 := (truthy_iff _).1 h2
      simp [handleSubmit_of_valid env s h1 h2, sendCalls, h3]

/-- C2: for every draft whose email contains no `@`, or does not end in a dot
followed by 2 to 4 ASCII letters, `handleSubmit` does not invoke the send call,
leaves `loading` as it was (so a false `loading` stays false and the status never
becomes Sending) and leaves the draft unchanged. -/
theorem handleSubmit_rejects_malformed_email (env : Env) (s : ContactState)
    (h : containsAt s.form.email = false ∨ endsInDotTld s.form.email = false) :
    sendCalls (handleSubmit env s).2 = [] ∧
      (handleSubmit env s).1.loading = s.loading ∧
      (handleSubmit env s).1.form = s.form := by
  have h1 : validateEmail s.form.email = false := by
    cases hv : validateEmail s.form.email with
    | false => rfl
    | true =>
      rcases h with h | h
      · rw [validateEmail_containsAt _ hv] at h
        cases h
      · rw [validateEmail_endsInDotTld _ hv] at h
        cases h
  rw [handleSubmit_of_invalid_email env s h1]
  exact ⟨rfl, rfl, rfl⟩

/-- Witness for C2 at the email `a@b.museum`, whose top-level domain has six
letters, in a state with `loading` false. -/
theorem handleSubmit_rejects_malformed_email_witness :
    (containsAt museumState.form.email = false ∨
        endsInDotTld museumState.form.email = false) ∧
      museumState.loading = false ∧
      sendCalls (handleSubmit exampleEnv museumState).2 = [] ∧
      (handleSubmit exampleEnv museumState).1.loading = museumState.loading ∧
      (handleSubmit exampleEnv museumState).1.form = museumState.form :=
  ⟨by decide, by decide,
    handleSubmit_rejects_malformed_email exampleEnv museumState (by decide)⟩

/-- C3: for every draft whose name is empty or consists only of white space,
`handleSubmit` does not invoke the send call, leaves `loading` as it was and
leaves the draft unchanged, whatever the email is (also when `validateEmail(email)`
is true). -/
theorem handleSubmit_rejects_blank_name (env : Env) (s : ContactState)
    (h : isBlank s.form.name = true) :
    sendCalls (handleSubmit env s).2 = [] ∧
      (handleSubmit env s).1.loading = s.loading ∧
      (handleSubmit env s).1.form = s.form := by
  have h2 : truthy (trim s.form.name) = false :=
    (truthy_eq_false_iff _).2 (trim_of_isBlank _ h)
  cases h1 : validateEmail s.form.email with
  | false =>
    rw [handleSubmit_of_invalid_email env s h1]
    exact ⟨rfl, rfl, rfl⟩
  | true =>
    rw [handleSubmit_of_blank_name env s h1 h2]
    exact ⟨rfl, rfl, rfl⟩

/-- Witness for C3 at a name of two spaces with an email that passes the check,
in a state with `loading` false. -/
theorem handleSubmit_rejects_blank_name_witness :
    isBlank blankNameState.form.name = true ∧
      validateEmail blankNameState.form.email = true ∧
      blankNameState.loading = false ∧
      sendCalls (handleSubmit exampleEnv blankNameState).2 = [] ∧
      (handleSubmit exampleEnv blankNameState).1.loading = blankNameState.loading ∧
      (handleSubmit exampleEnv blankNameState).1.form = blankNameState.form :=
  ⟨by decide, by decide, by decide,
    handleSubmit_rejects_blank_name exampleEnv blankNameState (by decide)⟩

/-! ## Single flight -/

/-- C4, counterexample: with the valid draft of `filledState`, the first
`handleSubmit` invokes send once, and a second `handleSubmit` fired before the
first call settles invokes send once more, so that two calls are in flight. -/
theorem second_submit_sends_again :
    validateEmail filledState.form.email = true ∧
      trim filledState.form.name ≠ "" ∧
      (sendCalls (handleSubmit exampleEnv filledState).2).length = 1 ∧
      (sendCalls (handleSubmit exampleEnv
        (handleSubmit exampleEnv filledState).1).2).length = 1 ∧
      (run exampleEnv { initialSystem with ui := filledState }
        [.submit, .submit]).inFlight.length = 2 := by
  decide

/-- C4, amended: with a valid name and email every `handleSubmit` invokes send
exactly once, whether or not an earlier call is still in flight: the first adds
one call in flight and sets `loading`, and a second one fired before the first
call resolves or rejects adds another call in flight and leaves the component
state unchanged. -/
theorem submit_twice_two_in_flight (env : Env) (σ : System)
    (h1 : validateEmail σ.ui.form.email = true) (h2 : trim σ.ui.form.name ≠ "") :
    (sendCalls (handleSubmit env σ.ui).2).length = 1 ∧
      (step env σ .submit).ui.loading = true ∧
      (step env σ .submit).inFlight.length = σ.inFlight.length + 1 ∧
      (sendCalls (handleSubmit env (step env σ .submit).ui).2).length = 1 ∧
      (step env (step env σ .submit) .submit).inFlight.length = σ.inFlight.length + 2 ∧
      (step env (step env σ .submit) .submit).ui = (step env σ .submit).ui := by
  have h3 := (truthy_iff _).2 h2
  have e1 : (step env σ .submit).ui =
      setLoading true (setConfirmation "" (setNameError "" (setEmailError "" σ.ui))) := by
    simp [step, handleSubmit_of_valid env σ.ui h1 h3]
  have h1b : validateEmail (step env σ .submit).ui.form.email = true := by
    rw [e1]; exact h1
  have h3b : truthy (trim (step env σ .submit).ui.form.name) = true := by
    rw [e1]; exact h3
  refine ⟨?_, ?_, ?_, ?_, ?_, ?_⟩
  · simp [handleSubmit_of_valid env σ.ui h1 h3, sendCalls]
  · rw [e1]; rfl
  · simp [step, handleSubmit_of_valid env σ.ui h1 h3, sendCalls]
  · simp [handleSubmit_of_valid env _ h1b h3b, sendCalls]
  · have hs : (step env (step env σ .submit) .submit).inFlight =
        (step env σ .submit).inFlight ++
          sendCalls (handleSubmit env (step env σ .submit).ui).2 := rfl
    rw [hs, handleSubmit_of_valid env _ h1b h3b]
    simp [step, handleSubmit_of_valid env σ.ui h1 h3, sendCalls]
  · have hs : (step env (step env σ .submit) .submit).ui =
        (handleSubmit env (step env σ .submit).ui).1 := rfl
    rw [hs, handleSubmit_of_valid env _ h1b h3b, e1]
    rfl

/-- Witness for the amended C4 at `filledState`, freshly mounted. -/
theorem submit_twice_two_in_flight_witness :
    validateEmail filledState.form.email = true ∧
      trim filledState.form.name ≠ "" ∧
      (sendCalls (handleSubmit exampleEnv filledState).2).length = 1 ∧
      (step exampleEnv ⟨filledState, [], []⟩ .submit).ui.loading = true ∧
      (step exampleEnv ⟨filledState, [], []⟩ .submit).inFlight.length = 0 + 1 ∧
      (sendCalls (handleSubmit exampleEnv
        (step exampleEnv ⟨filledState, [], []⟩ .submit).ui).2).length = 1 ∧
      (step exampleEnv (step exampleEnv ⟨filledState, [], []⟩ .submit)
        .submit).inFlight.length = 0 + 2 ∧
      (step exampleEnv (step exampleEnv ⟨filledState, [], []⟩ .submit) .submit).ui =
        (step exampleEnv ⟨filledState, [], []⟩ .submit).ui :=
  ⟨by decide, by decide,
    submit_twice_two_in_flight exampleEnv ⟨filledState, [], []⟩ (by decide) (by decide)⟩

/-! ## Settlement of the send call -/

/-- C5: when the send call resolves, the resulting state has the form
`{name: '', email: '', message: ''}`, `loading` false and the success message as
confirmation, whatever the state held before. -/
theorem onSendResolved_clears_draft (s : ContactState) :
    (onSendResolved s).1.form = { name := "", email := "", message := "" } ∧
      (onSendResolved s).1.loading = false ∧
      (onSendResolved s).1.confirmation =
        "Thank you! I will get back to you as soon as possible." :=
  ⟨rfl, rfl, rfl⟩

/-- C6: when the send call rejects, the form fields are exactly those held when
`handleSubmit` was called, `loading` is false and the confirmation is the failure
message; the rejection callback itself never changes the form. -/
theorem onSendRejected_keeps_draft (env : Env) (s : ContactState) (error : ErrorValue) :
    (onSendRejected error (handleSubmit env s).1).1.form = s.form ∧
      (onSendRejected error (handleSubmit env s).1).1.loading = false ∧
      (onSendRejected error (handleSubmit env s).1).1.confirmation =
        "Something went wrong. Please try again. :/" ∧
      ∀ t : ContactState, (onSendRejected error t).1.form = t.form := by
  refine ⟨?_, rfl, rfl, fun _ => rfl⟩
  cases h1 : validateEmail s.form.email with
  | false => rw [handleSubmit_of_invalid_email env s h1]; rfl
  | true =>
    cases h2 : truthy (trim s.form.name) with
    | false => rw [handleSubmit_of_blank_name env s h1 h2]; rfl
    | true => rw [handleSubmit_of_valid env s h1 h2]; rfl

/-- C7: whenever `handleSubmit` invokes send, the template parameters are
`from_name = form.name`, `from_email = form.email`, `message = form.message`,
`to_name = 'Asitha Kanchana'` and `to_email = 'asitha.contact.me@gmail.com'`, and
the service id, template id and public key are the three values of the
environment configuration. -/
theorem handleSubmit_send_arguments (env : Env) (s : ContactState) (c : SendCall)
    (h : c ∈ sendCalls (handleSubmit env s).2) :
    c.templateParams.from_name = s.form.name ∧
      c.templateParams.from_email = s.form.email ∧
      c.templateParams.message = s.form.message ∧
      c.templateParams.to_name = "Asitha Kanchana" ∧
      c.templateParams.to_email = "asitha.contact.me@gmail.com" ∧
      c.serviceID = env.VITE_EMAILJS_SERVICE_ID ∧
      c.templateID = env.VITE_EMAILJS_TEMPLATE_ID ∧
      c.publicKey = env.VITE_EMAILJS_PUBLIC_KEY := by
  cases h1 : validateEmail s.form.email with
  | false => simp [handleSubmit_of_invalid_email env s h1, sendCalls] at h
  | true =>
    cases h2 : truthy (trim s.form.name) with
    | false => simp [handleSubmit_of_blank_name env s h1 h2, sendCalls] at h
    | true =>
      simp only [handleSubmit_of_valid env s h1 h2, sendCalls, List.mem_singleton] at h
      subst h
      exact ⟨rfl, rfl, rfl, rfl, rfl, rfl, rfl, rfl⟩

/-- Witness for C7: the call made for `filledState` under `exampleEnv`. -/
theorem handleSubmit_send_arguments_witness :
    filledCall ∈ sendCalls (handleSubmit exampleEnv filledState).2 ∧
      filledCall.templateParams.from_name = filledState.form.name ∧
      filledCall.templateParams.from_email = filledState.form.email ∧
      filledCall.templateParams.message = filledState.form.message ∧
      filledCall.templateParams.to_name = "Asitha Kanchana" ∧
      filledCall.templateParams.to_email = "asitha.contact.me@gmail.com" ∧
      filledCall.serviceID = exampleEnv.VITE_EMAILJS_SERVICE_ID ∧
      filledCall.templateID = exampleEnv.VITE_EMAILJS_TEMPLATE_ID ∧
      filledCall.publicKey = exampleEnv.VITE_EMAILJS_PUBLIC_KEY :=
  ⟨by decide, handleSubmit_send_arguments exampleEnv filledState filledCall (by decide)⟩

/-! ## Validation errors and messages -/

/-- C8, counterexample: for the draft of `bothBadState` both checks fail (the
email is rejected and the trimmed name is empty), yet after `handleSubmit` only
the email error is set and the name error is empty. -/
theorem name_error_missing_when_email_fails :
    validateEmail bothBadState.form.email = false ∧
      trim bothBadState.form.name = "" ∧
      (handleSubmit exampleEnv bothBadState).1.emailError ≠ "" ∧
      (handleSubmit exampleEnv bothBadState).1.nameError = "" := by
  decide

/-- C8, amended: for every draft, after `handleSubmit` the email error is
non-empty exactly when the email check fails, and the name error is non-empty
exactly when the email check passes and the trimmed name is empty (the name is
checked only once the email has passed). -/
theorem handleSubmit_errors_iff (env : Env) (s : ContactState) :
    ((handleSubmit env s).1.emailError ≠ "" ↔ validateEmail s.form.email = false) ∧
      ((handleSubmit env s).1.nameError ≠ "" ↔
        (validateEmail s.form.email = true ∧ trim s.form.name = "")) := by
  cases h1 : validateEmail s.form.email with
  | false =>
    rw [handleSubmit_of_invalid_email env s h1]
    simp [setEmailError, setNameError, setConfirmation]
  | true =>
    cases h2 : truthy (trim s.form.name) with
    | false =>
      have h3 := (truthy_eq_false_iff _).1 h2
      rw [handleSubmit_of_blank_name env s h1 h2]
      simp [setEmailError, setNameError, setConfirmation, h3]
    | true =>
      have h3 := (truthy_iff _).1 h2
      rw [handleSubmit_of_valid env s h1 h2]
      simp [setEmailError, setNameError, setConfirmation, setLoading, h3]

/-- C9: the state after a rejected send does not depend on the error: for any two
error values and the same state before, the rejection callback produces the same
form, `loading`, `emailError`, `nameError` and confirmation, and the confirmation
is `'Something went wrong. Please try again. :/'`; the error only reaches
`console.error`. -/
theorem onSendRejected_state_independent_of_error (e1 e2 : ErrorValue) (s : ContactState) :
    (onSendRejected e1 s).1 = (onSendRejected e2 s).1 ∧
      (onSendRejected e1 s).1.confirmation = "Something went wrong. Please try again. :/" ∧
      loggedErrors (onSendRejected e1 s).2 = [e1] :=
  ⟨rfl, rfl, rfl⟩

/-- C10: for every prior state, after `handleSubmit` the confirmation is empty and
the two error fields hold only what this attempt computed from the form: the
email message if the email check fails and nothing otherwise, the name message if
the email passes and the trimmed name is empty and nothing otherwise. -/
theorem handleSubmit_clears_previous_messages (env : Env) (s : ContactState) :
    (handleSubmit env s).1.confirmation = "" ∧
      (handleSubmit env s).1.emailError =
        (if validateEmail s.form.email = true then ""
         else "Please enter a valid email address.") ∧
      (handleSubmit env s).1.nameError =
        (if validateEmail s.form.email = true ∧ trim s.form.name = ""
         then "Name is required." else "") := by
  cases h1 : validateEmail s.form.email with
  | false =>
    rw [handleSubmit_of_invalid_email env s h1]
    simp [setEmailError, setNameError, setConfirmation]
  | true =>
    cases h2 : truthy (trim s.form.name) with
    | false =>
      have h3 := (truthy_eq_false_iff _).1 h2
      rw [handleSubmit_of_blank_name env s h1 h2]
      simp [setEmailError, setNameError, setConfirmation, h3]
    | true =>
      have h3 := (truthy_iff _).1 h2
      rw [handleSubmit_of_valid env s h1 h2]
      simp [setEmailError, setNameError, setConfirmation, setLoading, h3]

end Contact

namespace Contact

/-! ## Editing a field, and how the promise chain ends -/

/-- C11: for every field `f` of name, email and message and every string `v`,
`handleChange` with `(f, v)` yields a form whose field `f` equals `v` and whose
other two fields are unchanged, and changes none of `loading`, `emailError`,
`nameError` and `confirmation`; every `v` is accepted, nothing is validated. -/
theorem handleChange_updates_one_field (f : Field) (v : String) (s : ContactState) :
    (∀ g : Field, (handleChange f v s).form.get g = if g = f then v else s.form.get g) ∧
      (handleChange f v s).loading = s.loading ∧
      (handleChange f v s).emailError = s.emailError ∧
      (handleChange f v s).nameError = s.nameError ∧
      (handleChange f v s).confirmation = s.confirmation := by
  refine ⟨?_, rfl, rfl, rfl, rfl⟩
  intro g
  cases f <;> cases g <;> simp [handleChange, setForm, Form.set, Form.get]

theorem sendCalls_handleSubmit (env : Env) (s : ContactState) :
    sendCalls (handleSubmit env s).2 = [] ∨
      ∃ call, sendCalls (handleSubmit env s).2 = [call] ∧
        (handleSubmit env s).1.loading = true := by
  cases h1 : validateEmail s.form.email with
  | false => left; rw [handleSubmit_of_invalid_email env s h1]; rfl
  | true =>
    cases h2 : truthy (trim s.form.name) with
    | false => left; rw [handleSubmit_of_blank_name env s h1 h2]; rfl
    | true => right; rw [handleSubmit_of_valid env s h1 h2]; exact ⟨_, rfl, rfl⟩

/-- A rejection passes the `.then` stage untouched: it is the `.catch` stage that
handles it. -/
theorem thenStage_rejected (error : ErrorValue) (s : ContactState) :
    thenStage thenCallback (Settlement.rejected error) s =
      (Settlement.rejected error, s, []) := rfl

/-- A value thrown by a rejection callback leaves the last promise of a chain
rejected. -/
theorem catchStage_of_throwing_callback (error thrown : ErrorValue) (s : ContactState) :
    (catchStage (fun _ t => { state := t, effects := [], thrown := some thrown })
      (Settlement.rejected error) s).1 = Settlement.rejected thrown := rfl

/-- A send call that throws before it returns makes `handleSubmit` throw: the
value leaves the handler, `loading` stays true and no message is set. -/
theorem handleSubmitRun_of_throwing_send (env : Env) (send : SendCall → SendBehaviour)
    (s : ContactState) (error : ErrorValue)
    (h1 : validateEmail s.form.email = true) (h2 : truthy (trim s.form.name) = true)
    (h3 : ∀ call, send call = SendBehaviour.throws error) :
    (handleSubmitRun env send s).thrown = some error ∧
      (handleSubmitRun env send s).chain = none ∧
      (handleSubmitRun env send s).state.loading = true ∧
      (handleSubmitRun env send s).state.confirmation = "" := by
  simp [handleSubmitRun, handleSubmit_of_valid env s h1 h2, sendCalls, h3, setLoading,
    setConfirmation]

/-- C12: `handleSubmit` never throws: for every draft of three strings and for
either outcome of the send call (the promise it returns resolves, or rejects
with any error value), no value leaves the handler as an exception and the
callbacks return, so that the last promise of the chain, if a chain was built,
is fulfilled; and every rejection ends in the Failed state, `loading` false with
the non-empty failure message, the error being logged. -/
theorem handleSubmit_never_raises (env : Env) (send : SendCall → SendBehaviour)
    (s : ContactState) (h : ∀ call, ∃ promise, send call = SendBehaviour.returns promise) :
    (handleSubmitRun env send s).thrown = none ∧
      ((handleSubmitRun env send s).chain = none ∨
        (handleSubmitRun env send s).chain = some Settlement.fulfilled) ∧
      ∀ call error, call ∈ sendCalls (handleSubmit env s).2 →
        send call = SendBehaviour.returns (Settlement.rejected error) →
          (handleSubmitRun env send s).chain = some Settlement.fulfilled ∧
            (handleSubmitRun env send s).state.loading = false ∧
            (handleSubmitRun env send s).state.confirmation =
              "Something went wrong. Please try again. :/" ∧
            (handleSubmitRun env send s).state.confirmation ≠ "" ∧
            (handleSubmitRun env send s).state.form = s.form ∧
            loggedErrors (handleSubmitRun env send s).effects = [error] := by
  rcases sendCalls_handleSubmit env s with h0 | ⟨c, hc, -⟩
  · refine ⟨?_, ?_, ?_⟩
    · simp [handleSubmitRun, h0]
    · left; simp [handleSubmitRun, h0]
    · intro call error hmem
      rw [h0] at hmem
      cases hmem
  · obtain ⟨promise, hp⟩ := h c
    have hne : ("Something went wrong. Please try again. :/" : String) ≠ "" := by decide
    refine ⟨?_, ?_, ?_⟩
    · simp [handleSubmitRun, hc, hp]
    · right
      cases promise <;>
        simp [handleSubmitRun, hc, hp, settleChain, thenStage, catchStage, thenCallback,
          catchCallback]
    · intro call error hmem hrej
      rw [hc, List.mem_singleton] at hmem
      subst hmem
      have hform : (handleSubmit env s).1.form = s.form := by
        cases h1 : validateEmail s.form.email with
        | false => rw [handleSubmit_of_invalid_email env s h1]; rfl
        | true =>
          cases h2 : truthy (trim s.form.name) with
          | false => rw [handleSubmit_of_blank_name env s h1 h2]; rfl
          | true => rw [handleSubmit_of_valid env s h1 h2]; rfl
      have hlog : loggedErrors (handleSubmit env s).2 = [] := by
        cases h1 : validateEmail s.form.email with
        | false => rw [handleSubmit_of_invalid_email env s h1]; rfl
        | true =>
          cases h2 : truthy (trim s.form.name) with
          | false => rw [handleSubmit_of_blank_name env s h1 h2]; rfl
          | true => rw [handleSubmit_of_valid env s h1 h2]; rfl
      have hlogapp : ∀ a b : List Effect,
          loggedErrors (a ++ b) = loggedErrors a ++ loggedErrors b := by
        intro a b
        induction a with
        | nil => rfl
        | cons x xs ih => cases x <;> simp [loggedErrors, ih]
      refine ⟨?_, ?_, ?_, ?_, ?_, ?_⟩
      · simp [handleSubmitRun, hc, hrej, settleChain, thenStage, catchStage, catchCallback]
      · simp [handleSubmitRun, hc, hrej, settleChain, thenStage, catchStage, catchCallback,
          onSendRejected, setLoading, setConfirmation]
      · simp [handleSubmitRun, hc, hrej, settleChain, thenStage, catchStage, catchCallback,
          onSendRejected, setLoading, setConfirmation]
      · simp only [handleSubmitRun, hc, hrej, settleChain, thenStage, catchStage,
          catchCallback, onSendRejected, setLoading, setConfirmation]
        exact hne
      · simp only [handleSubmitRun, hc, hrej, settleChain, thenStage, catchStage,
          catchCallback, onSendRejected, setLoading, setConfirmation]
        exact hform
      · simp only [handleSubmitRun, hc, hrej, settleChain, thenStage, catchStage,
          catchCallback, onSendRejected]
        rw [hlogapp, hlog]
        rfl

/-- Witness for C12: the valid draft of `filledState` with a send call whose
promise rejects with status 500. -/
theorem handleSubmit_never_raises_witness :
    (∀ call, ∃ promise, rejectingSend call = SendBehaviour.returns promise) ∧
      filledCall ∈ sendCalls (handleSubmit exampleEnv filledState).2 ∧
      rejectingSend filledCall =
        SendBehaviour.returns (Settlement.rejected { status := 500, text := "down" }) ∧
      (handleSubmitRun exampleEnv rejectingSend filledState).thrown = none ∧
      ((handleSubmitRun exampleEnv rejectingSend filledState).chain = none ∨
        (handleSubmitRun exampleEnv rejectingSend filledState).chain =
          some Settlement.fulfilled) ∧
      (handleSubmitRun exampleEnv rejectingSend filledState).chain =
        some Settlement.fulfilled ∧
      (handleSubmitRun exampleEnv rejectingSend filledState).state.loading = false ∧
      (handleSubmitRun exampleEnv rejectingSend filledState).state.confirmation =
        "Something went wrong. Please try again. :/" ∧
      (handleSubmitRun exampleEnv rejectingSend filledState).state.confirmation ≠ "" ∧
      (handleSubmitRun exampleEnv rejectingSend filledState).state.form =
        filledState.form ∧
      loggedErrors (handleSubmitRun exampleEnv rejectingSend filledState).effects =
        [{ status := 500, text := "down" }] :=
  ⟨fun _ => ⟨_, rfl⟩, by decide, rfl,
    (handleSubmit_never_raises exampleEnv rejectingSend filledState
      (fun _ => ⟨_, rfl⟩)).1,
    (handleSubmit_never_raises exampleEnv rejectingSend filledState
      (fun _ => ⟨_, rfl⟩)).2.1,
    (handleSubmit_never_raises exampleEnv rejectingSend filledState
      (fun _ => ⟨_, rfl⟩)).2.2 filledCall { status := 500, text := "down" } (by decide) rfl⟩

end Contact

namespace SimpleTestCanvas

/-! ## Lemmas on the retry counter -/

theorem retry_run_cons (s : CanvasState) (ev : Event) (evs : List Event) :
    run s (ev :: evs) = run (step s ev) evs := rfl

theorem onTimeout_retryCount_le (s : CanvasState) (h : s.retryCount ≤ 3) :
    (onTimeout s).retryCount ≤ 3 := by
  unfold onTimeout
  split
  · rename_i hc
    simp only [Bool.and_eq_true, decide_eq_true_eq] at hc
    simp only [setRetryCount, setContextLost]
    omega
  · exact h

theorem step_retryCount_le (s : CanvasState) (ev : Event) (h : s.retryCount ≤ 3) :
    (step s ev).retryCount ≤ 3 := by
  cases ev with
  | timeout => exact onTimeout_retryCount_le s h
  | contextLost => exact h
  | contextRestored => exact h
  | error e => exact h

theorem run_retryCount_le (evs : List Event) :
    ∀ s : CanvasState, s.retryCount ≤ 3 → (run s evs).retryCount ≤ 3 := by
  induction evs with
  | nil => intro s h; exact h
  | cons ev evs ih =>
    intro s h
    rw [retry_run_cons]
    exact ih _ (step_retryCount_le s ev h)

theorem step_retryCount_eq (s : CanvasState) (ev : Event) :
    (step s ev).retryCount = s.retryCount +
      (if ev = Event.timeout ∧ s.contextLost = true ∧ s.retryCount < 3 then 1 else 0) := by
  cases ev with
  | timeout =>
    by_cases hc : s.contextLost = true ∧ s.retryCount < 3
    · simp [step, onTimeout, hc.1, hc.2, setRetryCount, setContextLost]
    · have hb : (s.contextLost && decide (s.retryCount < 3)) = false := by
        simpa [Bool.and_eq_true, decide_eq_true_eq] using hc
      simp [step, onTimeout, hb, hc]
  | contextLost => simp [step, onContextLost, setContextLost]
  | contextRestored => simp [step, onContextRestored, setContextLost]
  | error e => simp [step, onError, setContextLost]

theorem run_retryCount_eq (evs : List Event) :
    ∀ s : CanvasState, (run s evs).retryCount = s.retryCount + retriesFired s evs := by
  induction evs with
  | nil => intro s; simp [run, retriesFired]
  | cons ev evs ih =>
    intro s
    rw [retry_run_cons, ih, step_retryCount_eq, retriesFired]
    omega

theorem run_exhausted (evs : List Event) (h : Event.contextRestored ∉ evs) :
    run { contextLost := true, retryCount := 3 } evs =
      { contextLost := true, retryCount := 3 } := by
  induction evs with
  | nil => rfl
  | cons ev evs ih =>
    have h1 : ev ≠ Event.contextRestored := fun e => h (by simp [e])
    have h2 : Event.contextRestored ∉ evs := fun m => h (List.mem_cons_of_mem _ m)
    rw [retry_run_cons]
    cases ev with
    | timeout => exact ih h2
    | contextLost => exact ih h2
    | contextRestored => exact absurd rfl h1
    | error e => exact ih h2

end SimpleTestCanvas

namespace SimpleTestCanvas

/-! ## Context notifications -/

/-- C13: in `SimpleTestCanvas`, for every Ready state (`contextLost` false),
handling one `webglcontextlost` notification calls `preventDefault` on that event
exactly once and yields `contextLost` true, so the placeholder is rendered, with
`retryCount` unchanged. -/
theorem contextLost_suppressed_once (s : CanvasState) (h : s.contextLost = false) :
    preventDefaultCalls (onContextLost s).2 = 1 ∧
      (onContextLost s).1.contextLost = true ∧
      (onContextLost s).1.retryCount = s.retryCount ∧
      render (onContextLost s).1 =
        View.placeholder (if s.retryCount > 0 then some s.retryCount else none) ∧
      render s = View.canvas s.retryCount := by
  have hcalls : preventDefaultCalls (onContextLost s).2 = 1 := by
    simp [preventDefaultCalls, onContextLost]
  refine ⟨hcalls, rfl, rfl, rfl, ?_⟩
  simp [render, h]

/-- Witness for C13 at the freshly mounted component. -/
theorem contextLost_suppressed_once_witness :
    initialState.contextLost = false ∧
      preventDefaultCalls (onContextLost initialState).2 = 1 ∧
      (onContextLost initialState).1.contextLost = true ∧
      (onContextLost initialState).1.retryCount = initialState.retryCount ∧
      render (onContextLost initialState).1 =
        View.placeholder
          (if initialState.retryCount > 0 then some initialState.retryCount else none) ∧
      render initialState = View.canvas initialState.retryCount :=
  ⟨by decide, contextLost_suppressed_once initialState (by decide)⟩

/-- C14: in `SimpleTestCanvas`, for every state with `contextLost` true, handling
a `webglcontextrestored` notification yields `contextLost` false (Ready, the
canvas is rendered) with `retryCount` unchanged. -/
theorem contextRestored_returns_ready (s : CanvasState) (h : s.contextLost = true) :
    (onContextRestored s).1.contextLost = false ∧
      (onContextRestored s).1.retryCount = s.retryCount ∧
      render (onContextRestored s).1 = View.canvas s.retryCount ∧
      render s = View.placeholder (if s.retryCount > 0 then some s.retryCount else none) := by
  refine ⟨rfl, rfl, rfl, ?_⟩
  simp [render, h]

/-- Witness for C14 in a lost state after one retry. -/
theorem contextRestored_returns_ready_witness :
    (⟨true, 1⟩ : CanvasState).contextLost = true ∧
      (onContextRestored ⟨true, 1⟩).1.contextLost = false ∧
      (onContextRestored ⟨true, 1⟩).1.retryCount = (⟨true, 1⟩ : CanvasState).retryCount ∧
      render (onContextRestored ⟨true, 1⟩).1 =
        View.canvas (⟨true, 1⟩ : CanvasState).retryCount ∧
      render ⟨true, 1⟩ =
        View.placeholder
          (if (⟨true, 1⟩ : CanvasState).retryCount > 0
           then some (⟨true, 1⟩ : CanvasState).retryCount else none) :=
  ⟨by decide, contextRestored_returns_ready ⟨true, 1⟩ (by decide)⟩

/-! ## The retry timer -/

/-- C15: in `SimpleTestCanvas`, `retryCount` starts at 0 and stays at most 3 in
every reachable state; it counts the timed retries that fired, so after three
timed retries it is 3 (as in the run lost, timeout, three times over); and a
timeout that expires with `contextLost` true and `retryCount` 3 changes nothing
and arms no further timeout: no fourth automatic retry fires. -/
theorem retryCount_bounded (evs : List Event) (now : Nat) :
    initialState.retryCount = 0 ∧
      (run initialState evs).retryCount ≤ 3 ∧
      (run initialState evs).retryCount = retriesFired initialState evs ∧
      run initialState [.contextLost, .timeout, .contextLost, .timeout,
        .contextLost, .timeout] = { contextLost := false, retryCount := 3 } ∧
      onTimeout { contextLost := true, retryCount := 3 } =
        { contextLost := true, retryCount := 3 } ∧
      stepAt now { ui := { contextLost := true, retryCount := 3 }, timer := some now }
          .timeout =
        { ui := { contextLost := true, retryCount := 3 }, timer := none } := by
  refine ⟨rfl, run_retryCount_le evs _ (by decide), ?_, by decide, by decide, ?_⟩
  · have h := run_retryCount_eq evs initialState
    simpa [initialState] using h
  · simp [stepAt, onTimeout, retryEffect]

/-- C16: in `SimpleTestCanvas`, a timeout that expires (2000 ms after the change
that armed it) with `contextLost` true and `retryCount = n < 3` yields
`contextLost` false and `retryCount = n + 1`, and the canvas is rendered with
`key` equal to the new `retryCount`, which differs from the key of the canvas
before; a timeout that expires with `contextLost` false changes nothing. -/
theorem timeout_retries (n : Nat) (h : n < 3) (k now : Nat) (timer : Option Nat) :
    onTimeout { contextLost := true, retryCount := n } =
        { contextLost := false, retryCount := n + 1 } ∧
      render (onTimeout { contextLost := true, retryCount := n }) = View.canvas (n + 1) ∧
      View.canvas (n + 1) ≠ View.canvas n ∧
      onTimeout { contextLost := false, retryCount := k } =
        { contextLost := false, retryCount := k } ∧
      stepAt now { ui := { contextLost := false, retryCount := n }, timer := timer }
          .contextLost =
        { ui := { contextLost := true, retryCount := n }, timer := some (now + 2000) } ∧
      stepAt (now + 2000)
          { ui := { contextLost := true, retryCount := n }, timer := some (now + 2000) }
          .timeout =
        { ui := { contextLost := false, retryCount := n + 1 },
          timer := some (now + 2000 + 2000) } := by
  have e1 : onTimeout { contextLost := true, retryCount := n } =
      { contextLost := false, retryCount := n + 1 } := by
    simp [onTimeout, h, setRetryCount, setContextLost]
  refine ⟨e1, ?_, ?_, ?_, ?_, ?_⟩
  · rw [e1]; simp [render]
  · simp
  · simp [onTimeout]
  · simp [stepAt, step, onContextLost, setContextLost, retryEffect]
  · simp [stepAt, e1, retryEffect]

/-- Witness for C16: the second retry, armed at time 500. -/
theorem timeout_retries_witness :
    1 < 3 ∧
      onTimeout { contextLost := true, retryCount := 1 } =
        { contextLost := false, retryCount := 1 + 1 } ∧
      render (onTimeout { contextLost := true, retryCount := 1 }) = View.canvas (1 + 1) ∧
      View.canvas (1 + 1) ≠ View.canvas 1 ∧
      onTimeout { contextLost := false, retryCount := 0 } =
        { contextLost := false, retryCount := 0 } ∧
      stepAt 500 { ui := { contextLost := false, retryCount := 1 }, timer := none }
          .contextLost =
        { ui := { contextLost := true, retryCount := 1 }, timer := some (500 + 2000) } ∧
      stepAt (500 + 2000)
          { ui := { contextLost := true, retryCount := 1 }, timer := some (500 + 2000) }
          .timeout =
        { ui := { contextLost := false, retryCount := 1 + 1 },
          timer := some (500 + 2000 + 2000) } :=
  ⟨by decide, timeout_retries 1 (by decide) 0 500 none⟩

/-- C17, counterexample: with retries exhausted (`contextLost` true and
`retryCount` 3) a `webglcontextrestored` notification sets `contextLost` to false,
and the canvas is rendered again without any remount. -/
theorem exhausted_left_by_contextRestored :
    step { contextLost := true, retryCount := 3 } .contextRestored =
        { contextLost := false, retryCount := 3 } ∧
      render (step { contextLost := true, retryCount := 3 } .contextRestored) =
        View.canvas 3 := by
  decide

/-- C17, amended: once retries are exhausted (`contextLost` true and `retryCount`
3) the state stays the same, and the placeholder stays rendered, under every
sequence of timeouts, context-lost notifications and canvas errors; a
context-restored notification still returns the component to Ready. -/
theorem exhausted_stays_lost (evs : List Event) (h : Event.contextRestored ∉ evs) :
    run { contextLost := true, retryCount := 3 } evs =
        { contextLost := true, retryCount := 3 } ∧
      render (run { contextLost := true, retryCount := 3 } evs) =
        View.placeholder (some 3) ∧
      (step { contextLost := true, retryCount := 3 } .contextRestored).contextLost =
        false := by
  rw [run_exhausted evs h]
  exact ⟨rfl, by decide, rfl⟩

/-- Witness for the amended C17: a timeout, a context loss, a canvas error and
another timeout. -/
theorem exhausted_stays_lost_witness :
    Event.contextRestored ∉ [Event.timeout, .contextLost, .error "failed", .timeout] ∧
      run { contextLost := true, retryCount := 3 }
          [Event.timeout, .contextLost, .error "failed", .timeout] =
        { contextLost := true, retryCount := 3 } ∧
      render (run { contextLost := true, retryCount := 3 }
          [Event.timeout, .contextLost, .error "failed", .timeout]) =
        View.placeholder (some 3) ∧
      (step { contextLost := true, retryCount := 3 } .contextRestored).contextLost =
        false :=
  ⟨by decide,
    exhausted_stays_lost [Event.timeout, .contextLost, .error "failed", .timeout]
      (by decide)⟩

end SimpleTestCanvas

namespace ComputersCanvas

/-! ## Lemmas on the two flags -/

theorem flags_run_cons (σ : System) (ev : Event) (evs : List Event) :
    run σ (ev :: evs) = run (step σ ev) evs := rfl

theorem mountEffect_webglSupported_false (b : Browser) (s : CanvasState)
    (h : s.webglSupported = false) : (mountEffect b s).1.webglSupported = false := by
  simp only [mountEffect, setIsMobile]
  split
  · rfl
  · exact h

theorem step_webglSupported_false (σ : System) (ev : Event)
    (h : σ.ui.webglSupported = false) : (step σ ev).ui.webglSupported = false := by
  cases ev with
  | effect => exact mountEffect_webglSupported_false σ.browser σ.ui h
  | mediaChange m => exact h
  | contextLost => exact h
  | contextRestored => exact h

theorem run_webglSupported_false (evs : List Event) :
    ∀ σ : System, σ.ui.webglSupported = false → (run σ evs).ui.webglSupported = false := by
  induction evs with
  | nil => intro σ h; exact h
  | cons ev evs ih =>
    intro σ h
    rw [flags_run_cons]
    exact ih _ (step_webglSupported_false σ ev h)

theorem render_of_unsupported (s : CanvasState) (h : s.webglSupported = false) :
    render s = View.fallback "WebGL not supported" := by
  simp [render, h]

theorem rendersFrom_unsupported (evs : List Event) :
    ∀ σ : System, σ.ui.webglSupported = false →
      rendersFrom σ evs = List.replicate evs.length (View.fallback "WebGL not supported") := by
  induction evs with
  | nil => intro σ _; rfl
  | cons ev evs ih =>
    intro σ h
    have h1 := step_webglSupported_false σ ev h
    simp only [rendersFrom, List.length_cons, List.replicate_succ]
    rw [render_of_unsupported _ h1, ih _ h1]

theorem step_isMobile_eq (σ : System) (ev : Event)
    (h : σ.ui.isMobile = σ.browser.mediaMatches) :
    (step σ ev).ui.isMobile = (step σ ev).browser.mediaMatches := by
  cases ev with
  | effect => simp [step, mountEffect, setIsMobile]
  | mediaChange m => rfl
  | contextLost => exact h
  | contextRestored => exact h

theorem run_isMobile_eq (evs : List Event) :
    ∀ σ : System, σ.ui.isMobile = σ.browser.mediaMatches →
      (run σ evs).ui.isMobile = (run σ evs).browser.mediaMatches := by
  induction evs with
  | nil => intro σ h; exact h
  | cons ev evs ih =>
    intro σ h
    rw [flags_run_cons]
    exact ih _ (step_isMobile_eq σ ev h)

/-! ## The WebGL probe -/

/-- C18, the code in a browser without WebGL: the first render, made with the
initial `webglSupported = true` before the mount effect has probed, returns the
canvas; the fallback is rendered only from the render after the effect on. -/
theorem first_render_is_canvas_without_webgl (evs : List Event) :
    noWebglBrowser.webgl = none ∧ noWebglBrowser.experimentalWebgl = none ∧
      renders noWebglBrowser evs =
        View.canvas (ComputerModel false) ::
          List.replicate (evs.length + 1) (View.fallback "WebGL not supported") := by
  refine ⟨rfl, rfl, ?_⟩
  have h0 : (step { ui := initialState, browser := noWebglBrowser } Event.effect).ui.webglSupported
      = false := by decide
  have ht := rendersFrom_unsupported evs _ h0
  simp only [renders, rendersFrom, List.replicate_succ]
  rw [ht, render_of_unsupported _ h0]
  rfl

/-- C19: once `ComputersCanvas` has `webglSupported` false, every later event it
handles (its effect running again, media-query changes, context notifications)
leaves `webglSupported` false, and the fallback is rendered at every subsequent
render. -/
theorem unsupported_is_terminal (σ : System) (evs : List Event)
    (h : σ.ui.webglSupported = false) :
    (run σ evs).ui.webglSupported = false ∧
      render (run σ evs).ui = View.fallback "WebGL not supported" ∧
      rendersFrom σ evs =
        List.replicate evs.length (View.fallback "WebGL not supported") := by
  have h1 := run_webglSupported_false evs σ h
  exact ⟨h1, render_of_unsupported _ h1, rendersFrom_unsupported evs σ h⟩

/-- Witness for C19: an unsupported component in a browser that has WebGL, under
a media change, the effect running again and both context notifications. -/
theorem unsupported_is_terminal_witness :
    (⟨⟨false, false⟩, mobileBrowser⟩ : System).ui.webglSupported = false ∧
      (run ⟨⟨false, false⟩, mobileBrowser⟩
        [.mediaChange false, .effect, .contextLost, .contextRestored]).ui.webglSupported =
          false ∧
      render (run ⟨⟨false, false⟩, mobileBrowser⟩
        [.mediaChange false, .effect, .contextLost, .contextRestored]).ui =
          View.fallback "WebGL not supported" ∧
      rendersFrom ⟨⟨false, false⟩, mobileBrowser⟩
          [.mediaChange false, .effect, .contextLost, .contextRestored] =
        List.replicate
          [Event.mediaChange false, .effect, .contextLost, .contextRestored].length
          (View.fallback "WebGL not supported") :=
  ⟨by decide,
    unsupported_is_terminal ⟨⟨false, false⟩, mobileBrowser⟩
      [.mediaChange false, .effect, .contextLost, .contextRestored] (by decide)⟩

/-! ## The viewport flag -/

/-- C20: in `ComputersCanvas`, once the mount effect has run `isMobile` equals
the current match of the media query, after the effect and after every change
event; it alone selects the model's render parameters, scale 0.7 and position
`[0, -3, -2.2]` when mobile and scale 0.75 and position `[0, -3.25, -1.5]`
otherwise; and the change listener sets `isMobile` to the event's value and
never changes `webglSupported`. -/
theorem isMobile_tracks_media_query (b : Browser) (evs : List Event) (m : Bool)
    (s : CanvasState) :
    (run { ui := initialState, browser := b } (Event.effect :: evs)).ui.isMobile =
        (run { ui := initialState, browser := b } (Event.effect :: evs)).browser.mediaMatches ∧
      (step { ui := initialState, browser := b } Event.effect).ui.isMobile = b.mediaMatches ∧
      render { isMobile := m, webglSupported := true } = View.canvas (ComputerModel m) ∧
      ComputerModel true = { scale := 0.7, position := [0, -3, -2.2] } ∧
      ComputerModel false = { scale := 0.75, position := [0, -3.25, -1.5] } ∧
      (handleMediaQueryChange m s).isMobile = m ∧
      (handleMediaQueryChange m s).webglSupported = s.webglSupported := by
  refine ⟨?_, ?_, rfl, rfl, rfl, rfl, rfl⟩
  · rw [flags_run_cons]
    apply run_isMobile_eq
    simp [step, mountEffect, setIsMobile]
  · simp [step, mountEffect, setIsMobile]

end ComputersCanvas

namespace Contact

/-! ## More on the pattern of `validateEmail` -/

theorem accepts_localClass (lo : Nat) (hi : Option Nat) (c : Char) :
    Piece.accepts ⟨localClass, lo, hi⟩ c = isLocalChar c := by
  simp [Piece.accepts, localClass, ClassItem.test, isLocalChar, isAsciiLetter, isAsciiDigit,
    Bool.or_assoc]

theorem accepts_domainClass (lo : Nat) (hi : Option Nat) (c : Char) :
    Piece.accepts ⟨domainClass, lo, hi⟩ c = isDomainChar c := by
  simp [Piece.accepts, domainClass, ClassItem.test, isDomainChar, isAsciiLetter, isAsciiDigit,
    Bool.or_assoc]

theorem run_single_self (c : Char) : Piece.run ⟨[.single c], 1, some 1⟩ [c] = true := by
  simp [Piece.run, Piece.accepts, ClassItem.test]

theorem isDomainChar_isLocalChar (c : Char) (h : isDomainChar c = true) :
    isLocalChar c = true := by
  simp only [isDomainChar, isLocalChar, Bool.or_eq_true] at h ⊢
  tauto

theorem isAsciiLetter_isLocalChar (c : Char) (h : isAsciiLetter c = true) :
    isLocalChar c = true := by
  simp only [isLocalChar, Bool.or_eq_true]
  tauto

theorem isLocalChar_ne_at (c : Char) (h : isLocalChar c = true) : c ≠ '@' := by
  intro e
  subst e
  revert h
  decide

theorem isAddressChar_not_isWhiteSpace (c : Char) (h : isAddressChar c = true) :
    isWhiteSpace c = false := by
  simp only [isAddressChar, isLocalChar, isAsciiLetter, isAsciiDigit, Bool.or_eq_true,
    Bool.and_eq_true, decide_eq_true_eq, beq_iff_eq] at h
  rcases h with ((((h | h) | h) | h) | h) | h
  · simp only [isWhiteSpace, Bool.or_eq_false_iff, Bool.and_eq_false_iff, beq_eq_false_iff_ne,
      decide_eq_false_iff_not, ne_eq]
    omega
  · simp only [isWhiteSpace, Bool.or_eq_false_iff, Bool.and_eq_false_iff, beq_eq_false_iff_ne,
      decide_eq_false_iff_not, ne_eq]
    omega
  · subst h; decide
  · subst h; decide
  · subst h; decide
  · subst h; decide

theorem count_at_of_all_local (l : List Char) (h : l.all isLocalChar = true) :
    l.count '@' = 0 := by
  rw [List.count_eq_zero]
  intro hm
  exact isLocalChar_ne_at _ ((List.all_eq_true.1 h) _ hm) rfl

end Contact

namespace Contact

/-! ## The pattern of `validateEmail`, both ways -/

theorem validateEmail_of_shape (email : String) (l d t : List Char)
    (e : email.data = l ++ '@' :: (d ++ '.' :: t))
    (hl : Piece.run ⟨localClass, 1, none⟩ l = true)
    (hd : Piece.run ⟨domainClass, 1, none⟩ d = true)
    (ht : Piece.run ⟨letterClass, 2, some 4⟩ t = true) :
    validateEmail email = true := by
  unfold validateEmail emailRegex
  rw [e]
  refine (matchPieces_cons_iff _ _ _).2 ⟨l, '@' :: (d ++ '.' :: t), rfl, hl, ?_⟩
  refine (matchPieces_cons_iff _ _ _).2 ⟨['@'], d ++ '.' :: t, rfl, run_single_self _, ?_⟩
  refine (matchPieces_cons_iff _ _ _).2 ⟨d, '.' :: t, rfl, hd, ?_⟩
  refine (matchPieces_cons_iff _ _ _).2 ⟨['.'], t, rfl, run_single_self _, ?_⟩
  refine (matchPieces_cons_iff _ _ _).2 ⟨t, [], by simp, ht, ?_⟩
  simp [matchPieces]

theorem run_localClass_iff (l : List Char) :
    Piece.run ⟨localClass, 1, none⟩ l = true ↔ l ≠ [] ∧ l.all isLocalChar = true := by
  have hacc : (l.all (Piece.accepts ⟨localClass, 1, none⟩)) = l.all isLocalChar := by
    congr 1
    funext c
    exact accepts_localClass 1 none c
  simp only [Piece.run, Bool.and_eq_true, decide_eq_true_eq, hacc]
  cases l <;> simp

theorem run_domainClass_iff (d : List Char) :
    Piece.run ⟨domainClass, 1, none⟩ d = true ↔ d ≠ [] ∧ d.all isDomainChar = true := by
  have hacc : (d.all (Piece.accepts ⟨domainClass, 1, none⟩)) = d.all isDomainChar := by
    congr 1
    funext c
    exact accepts_domainClass 1 none c
  simp only [Piece.run, Bool.and_eq_true, decide_eq_true_eq, hacc]
  cases d <;> simp

theorem run_letterClass_iff (t : List Char) :
    Piece.run ⟨letterClass, 2, some 4⟩ t = true ↔
      2 ≤ t.length ∧ t.length ≤ 4 ∧ t.all isAsciiLetter = true := by
  have hacc : (t.all (Piece.accepts ⟨letterClass, 2, some 4⟩)) = t.all isAsciiLetter := by
    congr 1
    funext c
    exact accepts_letterClass 2 (some 4) c
  simp only [Piece.run, Bool.and_eq_true, decide_eq_true_eq, hacc]
  tauto

/-- C25: `validateEmail(s)` is true if and only if `s` is `local`, `@`, `domain`,
a dot and `tld`, where `local` is a non-empty string over `[A-Za-z0-9._-]`,
`domain` a non-empty string over `[A-Za-z0-9.-]` and `tld` 2 to 4 ASCII letters;
so every accepted address contains exactly one `@`, no white space and no
character outside `[A-Za-z0-9._@-]`. -/
theorem validateEmail_iff_shape (s : String) :
    (validateEmail s = true ↔
      ∃ l d t : List Char, s.data = l ++ '@' :: (d ++ '.' :: t) ∧
        l ≠ [] ∧ l.all isLocalChar = true ∧
        d ≠ [] ∧ d.all isDomainChar = true ∧
        2 ≤ t.length ∧ t.length ≤ 4 ∧ t.all isAsciiLetter = true) ∧
      (validateEmail s = true →
        s.data.count '@' = 1 ∧
          s.data.all (fun c => !isWhiteSpace c) = true ∧
          s.data.all isAddressChar = true) := by
  have hiff : validateEmail s = true ↔
      ∃ l d t : List Char, s.data = l ++ '@' :: (d ++ '.' :: t) ∧
        l ≠ [] ∧ l.all isLocalChar = true ∧
        d ≠ [] ∧ d.all isDomainChar = true ∧
        2 ≤ t.length ∧ t.length ≤ 4 ∧ t.all isAsciiLetter = true := by
    constructor
    · intro h
      obtain ⟨l, d, t, e, hl, hd, ht⟩ := validateEmail_shape s h
      obtain ⟨hl1, hl2⟩ := (run_localClass_iff l).1 hl
      obtain ⟨hd1, hd2⟩ := (run_domainClass_iff d).1 hd
      obtain ⟨ht1, ht2, ht3⟩ := (run_letterClass_iff t).1 ht
      exact ⟨l, d, t, e, hl1, hl2, hd1, hd2, ht1, ht2, ht3⟩
    · rintro ⟨l, d, t, e, hl1, hl2, hd1, hd2, ht1, ht2, ht3⟩
      exact validateEmail_of_shape s l d t e ((run_localClass_iff l).2 ⟨hl1, hl2⟩)
        ((run_domainClass_iff d).2 ⟨hd1, hd2⟩) ((run_letterClass_iff t).2 ⟨ht1, ht2, ht3⟩)
  refine ⟨hiff, fun h => ?_⟩
  obtain ⟨l, d, t, e, -, hl, -, hd, -, -, ht⟩ := hiff.1 h
  have hdl : d.all isLocalChar = true :=
    List.all_eq_true.2 fun c hc => isDomainChar_isLocalChar c ((List.all_eq_true.1 hd) c hc)
  have htl : t.all isLocalChar = true :=
    List.all_eq_true.2 fun c hc => isAsciiLetter_isLocalChar c ((List.all_eq_true.1 ht) c hc)
  have hall : s.data.all isAddressChar = true := by
    rw [e, List.all_eq_true]
    intro c hc
    simp only [List.mem_append, List.mem_cons] at hc
    have hloc : isLocalChar c = true ∨ c = '@' := by
      rcases hc with hc | hc | hc | hc | hc
      · exact Or.inl ((List.all_eq_true.1 hl) c hc)
      · exact Or.inr hc
      · exact Or.inl ((List.all_eq_true.1 hdl) c hc)
      · subst hc; exact Or.inl (by decide)
      · exact Or.inl ((List.all_eq_true.1 htl) c hc)
    rcases hloc with h1 | h1
    · simp [isAddressChar, h1]
    · simp [isAddressChar, h1]
  refine ⟨?_, ?_, hall⟩
  · rw [e]
    simp only [List.count_append, List.count_cons, count_at_of_all_local l hl,
      count_at_of_all_local d hdl, count_at_of_all_local t htl]
    decide
  · rw [List.all_eq_true] at hall ⊢
    intro c hc
    simp [isAddressChar_not_isWhiteSpace c (hall c hc)]

/-- Witness for C25 at the address `ann@mail.com`. -/
theorem validateEmail_iff_shape_witness :
    validateEmail "ann@mail.com" = true ∧
      ("ann@mail.com" : String).data.count '@' = 1 ∧
      ("ann@mail.com" : String).data.all (fun c => !isWhiteSpace c) = true ∧
      ("ann@mail.com" : String).data.all isAddressChar = true :=
  ⟨by decide, (validateEmail_iff_shape "ann@mail.com").2 (by decide)⟩

end Contact

namespace Contact

/-! ## Late callbacks after teardown -/

theorem resolvedCalls_apply (s : ContactState) :
    resolvedCalls.foldl (fun s c => c.apply s) s = (onSendResolved s).1 := rfl

theorem rejectedCalls_apply (error : ErrorValue) (s : ContactState) :
    rejectedCalls.foldl (fun s c => c.apply s) s = (onSendRejected error s).1 := rfl

/-- C21, counterexample: for a component torn down while the send call of
`filledState` is in flight, the late callbacks still make their setter calls,
three on resolve and two on reject, and the reject callback still logs the
error: neither callback checks that the component is mounted. -/
theorem late_callbacks_call_setters_after_teardown :
    (teardown ⟨true, (handleSubmit exampleEnv filledState).1⟩).mounted = false ∧
      (lateResolved (teardown ⟨true, (handleSubmit exampleEnv filledState).1⟩)).2.1 =
        [ SetterCall.loading false,
          SetterCall.confirmation "Thank you! I will get back to you as soon as possible.",
          SetterCall.form { name := "", email := "", message := "" } ] ∧
      (lateRejected ⟨500, "down"⟩
          (teardown ⟨true, (handleSubmit exampleEnv filledState).1⟩)).2.1 =
        [ SetterCall.loading false,
          SetterCall.confirmation "Something went wrong. Please try again. :/" ] ∧
      loggedErrors (lateRejected ⟨500, "down"⟩
          (teardown ⟨true, (handleSubmit exampleEnv filledState).1⟩)).2.2 =
        [⟨500, "down"⟩] := by
  decide

/-- C21, amended: the late resolve and reject callbacks contain no mounted check:
they make the same setter calls, and the reject callback the same `console.error`
call, whether or not the component is mounted.  After a teardown the state is
left unchanged all the same, because React drops setter calls made for an
unmounted component; on a mounted component the calls have the effect of the
callbacks. -/
theorem late_callbacks_unguarded (i : Instance) (error : ErrorValue) (s : ContactState) :
    (lateResolved (teardown i)).2.1 = (lateResolved i).2.1 ∧
      (lateRejected error (teardown i)).2.1 = (lateRejected error i).2.1 ∧
      (lateRejected error (teardown i)).2.2 = (lateRejected error i).2.2 ∧
      (lateResolved (teardown i)).1 = teardown i ∧
      (lateRejected error (teardown i)).1 = teardown i ∧
      (lateResolved ⟨true, s⟩).1.ui = (onSendResolved s).1 ∧
      (lateRejected error ⟨true, s⟩).1.ui = (onSendRejected error s).1 := by
  refine ⟨rfl, rfl, rfl, ?_, ?_, ?_, ?_⟩
  · simp [lateResolved, Instance.dispatch, teardown]
  · simp [lateRejected, Instance.dispatch, teardown]
  · simp [lateResolved, Instance.dispatch, resolvedCalls_apply]
  · simp [lateRejected, Instance.dispatch, rejectedCalls_apply error]

/-! ## Order of the checks, and the loading flag -/

/-- C26: `handleSubmit` checks the email before the name: when the email is
invalid and the trimmed name is also empty, only `emailError` is set and
`nameError` stays empty; and after any `handleSubmit` at most one of `emailError`
and `nameError` is non-empty. -/
theorem handleSubmit_email_checked_first (env : Env) (s : ContactState)
    (h1 : validateEmail s.form.email = false) (h2 : trim s.form.name = "") :
    truthy (trim s.form.name) = false ∧
      (handleSubmit env s).1.emailError = "Please enter a valid email address." ∧
      (handleSubmit env s).1.nameError = "" ∧
      ∀ t : ContactState,
        (handleSubmit env t).1.emailError = "" ∨ (handleSubmit env t).1.nameError = "" := by
  refine ⟨(truthy_eq_false_iff _).2 h2, ?_, ?_, ?_⟩
  · rw [handleSubmit_of_invalid_email env s h1]; rfl
  · rw [handleSubmit_of_invalid_email env s h1]; rfl
  · intro t
    cases h3 : validateEmail t.form.email with
    | false => right; rw [handleSubmit_of_invalid_email env t h3]; rfl
    | true =>
      cases h4 : truthy (trim t.form.name) with
      | false => left; rw [handleSubmit_of_blank_name env t h3 h4]; rfl
      | true => left; rw [handleSubmit_of_valid env t h3 h4]; rfl

/-- Witness for C26 at `bothBadState`, whose email fails the check and whose
name is empty. -/
theorem handleSubmit_email_checked_first_witness :
    validateEmail bothBadState.form.email = false ∧
      trim bothBadState.form.name = "" ∧
      truthy (trim bothBadState.form.name) = false ∧
      (handleSubmit exampleEnv bothBadState).1.emailError =
        "Please enter a valid email address." ∧
      (handleSubmit exampleEnv bothBadState).1.nameError = "" ∧
      ∀ t : ContactState,
        (handleSubmit exampleEnv t).1.emailError = "" ∨
          (handleSubmit exampleEnv t).1.nameError = "" :=
  ⟨by decide, by decide,
    handleSubmit_email_checked_first exampleEnv bothBadState (by decide) (by decide)⟩

theorem contact_run_cons (env : Env) (σ : System) (a : Action) (as : List Action) :
    run env σ (a :: as) = run env (step env σ a) as := rfl

theorem step_loading_inFlight (env : Env) (σ : System) (a : Action)
    (h : σ.ui.loading = true → σ.inFlight ≠ []) :
    (step env σ a).ui.loading = true → (step env σ a).inFlight ≠ [] := by
  cases a with
  | change field value => exact h
  | submit =>
    cases h1 : validateEmail σ.ui.form.email with
    | false =>
      simp only [step, handleSubmit_of_invalid_email env σ.ui h1, sendCalls,
        List.append_nil]
      exact h
    | true =>
      cases h2 : truthy (trim σ.ui.form.name) with
      | false =>
        simp only [step, handleSubmit_of_blank_name env σ.ui h1 h2, sendCalls,
          List.append_nil]
        exact h
      | true =>
        simp [step, handleSubmit_of_valid env σ.ui h1 h2, sendCalls]
  | resolve i =>
    by_cases hi : i < σ.inFlight.length
    · simp [step, hi, onSendResolved, setForm, setConfirmation, setLoading]
    · simp only [step, hi, if_false]
      exact h
  | reject i error =>
    by_cases hi : i < σ.inFlight.length
    · simp [step, hi, onSendRejected, setConfirmation, setLoading]
    · simp only [step, hi, if_false]
      exact h

theorem run_loading_inFlight (env : Env) (as : List Action) :
    ∀ σ : System, (σ.ui.loading = true → σ.inFlight ≠ []) →
      (run env σ as).ui.loading = true → (run env σ as).inFlight ≠ [] := by
  induction as with
  | nil => intro σ h; exact h
  | cons a as ih =>
    intro σ h
    rw [contact_run_cons]
    exact ih _ (step_loading_inFlight env σ a h)

/-- C27, counterexample: after two submits of the valid draft of `filledState`
and the settlement of the first call, `loading` is false although the second
call is still in flight. -/
theorem loading_false_with_call_in_flight :
    (run exampleEnv { initialSystem with ui := filledState }
        [.submit, .submit, .resolve 0]).ui.loading = false ∧
      (run exampleEnv { initialSystem with ui := filledState }
        [.submit, .submit, .resolve 0]).inFlight.length = 1 := by
  decide

/-- C27, amended: in every reachable state of the contact form's step relation
(`handleChange`, `handleSubmit`, send resolved, send rejected), whenever
`loading` is true a send call is in flight. -/
theorem loading_implies_in_flight (env : Env) (as : List Action)
    (h : (run env initialSystem as).ui.loading = true) :
    (run env initialSystem as).inFlight ≠ [] := by
  refine run_loading_inFlight env as initialSystem ?_ h
  intro h0
  exact absurd h0 (by decide)

/-- Witness for the amended C27: name and email are typed in and the form is
submitted. -/
theorem loading_implies_in_flight_witness :
    (run exampleEnv initialSystem
        [.change .name "Ann", .change .email "ann@mail.com", .submit]).ui.loading = true ∧
      (run exampleEnv initialSystem
        [.change .name "Ann", .change .email "ann@mail.com", .submit]).inFlight ≠ [] :=
  ⟨by decide,
    loading_implies_in_flight exampleEnv
      [.change .name "Ann", .change .email "ann@mail.com", .submit] (by decide)⟩

/-- C28: right after a successful submission, which resets the form to empty
strings, a further `handleSubmit` with no edit in between is rejected by the
validation: it sets `emailError`, invokes no send call and clears the success
confirmation. -/
theorem resubmit_after_success_rejected (env : Env) (s : ContactState) :
    (onSendResolved s).1.confirmation =
        "Thank you! I will get back to you as soon as possible." ∧
      validateEmail (onSendResolved s).1.form.email = false ∧
      (handleSubmit env (onSendResolved s).1).1.emailError =
        "Please enter a valid email address." ∧
      sendCalls (handleSubmit env (onSendResolved s).1).2 = [] ∧
      (handleSubmit env (onSendResolved s).1).1.confirmation = "" ∧
      (handleSubmit env (onSendResolved s).1).1.loading = false := by
  have h1 : validateEmail (onSendResolved s).1.form.email = false := by
    show validateEmail "" = false
    decide
  rw [handleSubmit_of_invalid_email env _ h1]
  exact ⟨rfl, h1, rfl, rfl, rfl, rfl⟩

end Contact

namespace Contact

theorem all_of_all_dropWhile (p : Char → Bool) (l : List Char)
    (h : ∀ x ∈ l.dropWhile p, p x = true) : ∀ x ∈ l, p x = true := by
  induction l with
  | nil => intro x hx; cases hx
  | cons a l ih =>
    cases hp : p a with
    | true =>
      rw [List.dropWhile_cons_of_pos hp] at h
      intro x hx
      rcases List.mem_cons.1 hx with e | hm
      · rw [e]; exact hp
      · exact ih h x hm
    | false =>
      have hneg : ¬ p a = true := by simp [hp]
      rw [List.dropWhile_cons_of_neg hneg] at h
      exact h

theorem isBlank_of_trim (s : String) (h : trim s = "") : isBlank s = true := by
  have h1 : ((s.data.dropWhile isWhiteSpace).reverse.dropWhile isWhiteSpace).reverse = [] := by
    have := congrArg String.data h
    simpa [trim] using this
  have h2 : (s.data.dropWhile isWhiteSpace).reverse.dropWhile isWhiteSpace = [] :=
    List.reverse_eq_nil_iff.1 h1
  have h3 : ∀ x ∈ s.data.dropWhile isWhiteSpace, isWhiteSpace x = true := by
    intro x hx
    exact (List.dropWhile_eq_nil_iff.1 h2) x (List.mem_reverse.2 hx)
  exact List.all_eq_true.2 (all_of_all_dropWhile _ _ h3)

end Contact

namespace SocialLinks

/-! ## Lemmas on the guard and the filter -/

theorem isValidSocialLink_iff (social : SocialLink) :
    isValidSocialLink social = true ↔
      (social.url ≠ "" ∧ social.url ≠ "#" ∧ Contact.isBlank social.url = false) := by
  simp only [isValidSocialLink, Bool.and_eq_true, Contact.truthy_iff, bne_iff_ne, ne_eq]
  constructor
  · rintro ⟨⟨h1, h2⟩, h3⟩
    refine ⟨h1, h2, ?_⟩
    cases hb : Contact.isBlank social.url with
    | false => rfl
    | true => exact absurd (Contact.trim_of_isBlank _ hb) h3
  · rintro ⟨h1, h2, h3⟩
    refine ⟨⟨h1, h2⟩, fun ht => ?_⟩
    rw [Contact.isBlank_of_trim _ ht] at h3
    cases h3

theorem SocialButton_of_valid (social : SocialLink) (index : Nat) (size : Size)
    (showLabel : Bool) (h : isValidSocialLink social = true) :
    ∃ b, SocialButton social index size showLabel = some b ∧ b.href = social.url := by
  obtain ⟨h1, h2, -⟩ := (isValidSocialLink_iff social).1 h
  have ht : Contact.truthy social.url = true := (Contact.truthy_iff _).2 h1
  simp [SocialButton, ht, h2]

theorem shown_mapWithIndex_of_valid (size : Size) (showLabel : Bool)
    (links : List SocialLink) :
    ∀ start : Nat, (∀ l ∈ links, isValidSocialLink l = true) →
      shownKeys (mapWithIndex
          (fun social index =>
            { key := social.name, button := SocialButton social index size showLabel })
          start links) = links.map (fun l => l.name) ∧
        shownHrefs (mapWithIndex
          (fun social index =>
            { key := social.name, button := SocialButton social index size showLabel })
          start links) = links.map (fun l => l.url) := by
  induction links with
  | nil => intro _ _; exact ⟨rfl, rfl⟩
  | cons l ls ih =>
    intro start h
    obtain ⟨b, hb, hhref⟩ := SocialButton_of_valid l start size showLabel
      (h l (List.mem_cons_self _ _))
    obtain ⟨ih1, ih2⟩ := ih (start + 1) (fun x hx => h x (List.mem_cons_of_mem _ hx))
    constructor
    · simp only [mapWithIndex, shownKeys, List.map_cons] at ih1 ⊢
      rw [List.filter_cons_of_pos (by simp [hb]), List.map_cons, ih1]
    · simp only [mapWithIndex, shownHrefs, List.map_cons] at ih2 ⊢
      rw [List.filterMap_cons_some (by simp [hb]; rfl), ih2, hhref]

end SocialLinks

namespace SocialLinks

/-! ## The variant switch and the list components -/

/-- C22: `SocialMedia` renders `SocialMediaSidebar` for variant `sidebar`,
`SocialMediaGrid` for `grid`, `ContactSocialMedia` for `contact`, and
`SocialMediaBar` for `bar`, for an omitted variant and for every other string;
the remaining props reach the selected component unchanged. -/
theorem SocialMedia_selects_variant {Props : Type} (props : Props) (v : String)
    (h1 : v ≠ "sidebar") (h2 : v ≠ "grid") (h3 : v ≠ "contact") :
    SocialMedia (some "sidebar") props = (Component.SocialMediaSidebar, props) ∧
      SocialMedia (some "grid") props = (Component.SocialMediaGrid, props) ∧
      SocialMedia (some "contact") props = (Component.ContactSocialMedia, props) ∧
      SocialMedia (some "bar") props = (Component.SocialMediaBar, props) ∧
      SocialMedia none props = (Component.SocialMediaBar, props) ∧
      SocialMedia (some v) props = (Component.SocialMediaBar, props) := by
  refine ⟨?_, ?_, ?_, ?_, ?_, ?_⟩
  · simp [SocialMedia]
  · simp [SocialMedia]
  · simp [SocialMedia]
  · simp [SocialMedia]
  · simp [SocialMedia]
  · simp [SocialMedia, h1, h2, h3]

/-- Witness for C22 with the variant `footer` and the props value `7`. -/
theorem SocialMedia_selects_variant_witness :
    ("footer" : String) ≠ "sidebar" ∧ ("footer" : String) ≠ "grid" ∧
      ("footer" : String) ≠ "contact" ∧
      SocialMedia (some "sidebar") (7 : Nat) = (Component.SocialMediaSidebar, 7) ∧
      SocialMedia (some "grid") (7 : Nat) = (Component.SocialMediaGrid, 7) ∧
      SocialMedia (some "contact") (7 : Nat) = (Component.ContactSocialMedia, 7) ∧
      SocialMedia (some "bar") (7 : Nat) = (Component.SocialMediaBar, 7) ∧
      SocialMedia none (7 : Nat) = (Component.SocialMediaBar, 7) ∧
      SocialMedia (some "footer") (7 : Nat) = (Component.SocialMediaBar, 7) :=
  ⟨by decide, by decide, by decide,
    SocialMedia_selects_variant (7 : Nat) "footer" (by decide) (by decide) (by decide)⟩

/-- C23: `SocialMediaBar` shows one button for each entry of the link table
whose url is non-empty, is not `#` and is not made of white space only, in the
order of the table and for no other entry; for the shipped table these are
LinkedIn, GitHub, Facebook, YouTube and WhatsApp. -/
theorem SocialMediaBar_shows_usable_links (links : List SocialLink) (size : Size)
    (showLabels : Bool) :
    shownKeys (SocialMediaBar links size showLabels) =
        (links.filter fun l =>
          decide (l.url ≠ "" ∧ l.url ≠ "#" ∧ Contact.isBlank l.url = false)).map
          (fun l => l.name) ∧
      shownHrefs (SocialMediaBar links size showLabels) =
        (links.filter fun l =>
          decide (l.url ≠ "" ∧ l.url ≠ "#" ∧ Contact.isBlank l.url = false)).map
          (fun l => l.url) ∧
      shownKeys (SocialMediaBar socialMediaLinks size showLabels) =
        ["LinkedIn", "GitHub", "Facebook", "YouTube", "WhatsApp"] := by
  have hfilter : ∀ ls : List SocialLink, ls.filter isValidSocialLink =
      ls.filter fun l =>
        decide (l.url ≠ "" ∧ l.url ≠ "#" ∧ Contact.isBlank l.url = false) := by
    intro ls
    apply List.filter_congr
    intro l _
    rw [Bool.eq_iff_iff, isValidSocialLink_iff, decide_eq_true_iff]
  have hvalid : ∀ ls : List SocialLink, ∀ l ∈ ls.filter isValidSocialLink,
      isValidSocialLink l = true := fun ls l hl => (List.mem_filter.1 hl).2
  have hgen : ∀ ls : List SocialLink,
      shownKeys (SocialMediaBar ls size showLabels) =
          (ls.filter isValidSocialLink).map (fun l => l.name) ∧
        shownHrefs (SocialMediaBar ls size showLabels) =
          (ls.filter isValidSocialLink).map (fun l => l.url) := fun ls =>
    shown_mapWithIndex_of_valid size showLabels (ls.filter isValidSocialLink) 0 (hvalid ls)
  refine ⟨?_, ?_, ?_⟩
  · rw [(hgen links).1, hfilter]
  · rw [(hgen links).2, hfilter]
  · rw [(hgen socialMediaLinks).1]
    decide

/-! ## Button sizes and classes -/

/-- C24, the code at size `sm`: below the `sm` breakpoint the classes `w-8 h-8`
make the button 32 pixels wide and high, under the 40 pixels the component's
documentation gives as the minimum; every other size, and `sm` from the
breakpoint upwards, is at least 40 pixels. -/
theorem sm_button_below_touch_minimum :
    sizeClasses Size.sm = "w-8 h-8 p-1.5 sm:w-10 sm:h-10 sm:p-2" ∧
      widthPx Breakpoint.base Size.sm = some 32 ∧
      heightPx Breakpoint.base Size.sm = some 32 ∧
      widthPx Breakpoint.sm Size.sm = some 40 ∧
      heightPx Breakpoint.sm Size.sm = some 40 ∧
      [Size.md, Size.lg, Size.xl].map (fun s => (widthPx Breakpoint.base s,
          heightPx Breakpoint.base s, widthPx Breakpoint.sm s, heightPx Breakpoint.sm s)) =
        [ (some 40, some 40, some 48, some 48),
          (some 48, some 48, some 64, some 64),
          (some 64, some 64, some 80, some 80) ] := by
  decide

/-- C29, the code at a url of one space: the filter of `SocialMediaBar` drops the
link, the guard of `SocialButton` lets it through, so `SocialMediaSidebar` and
`SocialMediaGrid` show a button that `SocialMediaBar` does not show. -/
theorem blank_url_shown_by_sidebar_not_by_bar :
    blankUrlLink.url = " " ∧
      isValidSocialLink blankUrlLink = false ∧
      (SocialButton blankUrlLink 0 Size.md false).isSome = true ∧
      shownKeys (SocialMediaBar [blankUrlLink] Size.md false) = [] ∧
      shownKeys (SocialMediaSidebar [blankUrlLink] Size.md) = ["Blog"] ∧
      shownKeys (SocialMediaGrid [blankUrlLink] Size.md false) = ["Blog"] ∧
      shownHrefs (SocialMediaSidebar [blankUrlLink] Size.md) = [" "] := by
  decide

set_option maxRecDepth 100000 in
/-- C30, the code for the LinkedIn entry at size `md` without label: the text
written after `//` inside the template literal is part of the class string, so
the `className` carries the tokens `//`, `White`, `text`, `absolute`, `shadow` and
the rest of the comment words next to the intended classes; white space is
collapsed to single spaces and trimmed. -/
theorem className_contains_comment_text :
    buttonClassName linkedIn Size.md false =
        "w-10 h-10 p-2 sm:w-12 sm:h-12 sm:p-2.5 text-white // White text for all icons bg-blue-600 hover:bg-blue-700 // Platform-specific colored backgrounds border-2 border-blue-500 // Platform-specific colored borders flex items-center justify-center relative // For absolute positioned glow effect rounded-full // Circular buttons transition-all duration-300 // Smooth transitions hover:scale-110 // Slight scale on hover hover:shadow-2xl // Strong shadow on hover group // For child element hover states shadow-lg shadow-black/30 // Strong shadow for definition overflow-hidden // Hide glow overflow // Vertical layout for labels" ∧
      "//" ∈ classTokens (buttonClassName linkedIn Size.md false) ∧
      "White" ∈ classTokens (buttonClassName linkedIn Size.md false) ∧
      "absolute" ∈ classTokens (buttonClassName linkedIn Size.md false) ∧
      "shadow" ∈ classTokens (buttonClassName linkedIn Size.md false) ∧
      "" ∉ classTokens (buttonClassName linkedIn Size.md false) := by
  decide

end SocialLinks
